import Mathlib

/-!
# mod_cache storage decision logic (`modules/cache/cache_storage.c`)

A shallow embedding of `cache_remove_url`, `cache_create_entity`,
`ap_cache_accept_headers`, `cache_select` and `cache_generate_key_default`, together
with the APR table and string operations they call, and theorems about the provider
chain, Vary validation, conditional revalidation, header reconciliation, the request
state and the cache key.

Conventions of the embedding:
* a C string is a `String`; a `NULL` pointer to a string or a table entry is `none`;
* an `apr_table_t` is the list of its `(key, value)` entries in insertion order,
  keys compared with `strcasecmp`;
* a `cache_handle_t *` is represented by the contents it points to when the
  function returns;
* the per-request `cache_request_rec`, which the C code fetches from
  `r->request_config`, is passed and returned explicitly;
* every provider call is recorded, in order, in the result of the operation.
-/

namespace CacheStorage

/-! ## C strings and APR tables -/

/-- The C-locale `apr_tolower`: ASCII upper-case letters are mapped to lower case. -/
def apr_tolower (c : Char) : Char := c.toLower

/-- The C-locale `apr_isspace`: space, `\t`, `\n`, `\v`, `\f`, `\r`. -/
def apr_isspace (c : Char) : Bool :=
  c == ' ' || c == '\t' || c == '\n' || c == Char.ofNat 11 || c == Char.ofNat 12 || c == '\r'

/-- The test `strcasecmp(a, b) == 0`: equal after folding ASCII case. -/
def strcasecmp_eq (a b : String) : Bool :=
  a.data.map apr_tolower == b.data.map apr_tolower

/-- An APR table: its entries in insertion order. Several entries may share a key. -/
abbrev apr_table_t := List (String × String)

/-- APR `apr_table_get`: the value of the first entry whose key matches, `none` for `NULL`. -/
def apr_table_get : apr_table_t → String → Option String
  | [], _ => none
  | (k, v) :: t, key => if strcasecmp_eq k key then some v else apr_table_get t key

/-- APR `apr_table_unset`: every entry whose key matches is removed. -/
def apr_table_unset (t : apr_table_t) (key : String) : apr_table_t :=
  t.filter (fun e => !strcasecmp_eq e.1 key)

/-- APR `apr_table_set`: the first entry whose key matches gets the new value and every
later entry of that key is removed; a key that is not in the table is appended. -/
def apr_table_set : apr_table_t → String → String → apr_table_t
  | [], key, val => [(key, val)]
  | (k, v) :: t, key, val =>
    if strcasecmp_eq k key then (k, val) :: apr_table_unset t key
    else (k, v) :: apr_table_set t key val

/-- APR `apr_table_addn`: the entry is appended, whatever the table holds. -/
def apr_table_addn (t : apr_table_t) (key val : String) : apr_table_t :=
  t ++ [(key, val)]

/-- APR `apr_table_copy`: a table with the same entries. -/
def apr_table_copy (t : apr_table_t) : apr_table_t := t

/-- APR `apr_is_empty_table`. -/
def apr_is_empty_table (t : apr_table_t) : Bool := t.isEmpty

/-- APR `apr_table_overlay(p, overlay, base)`: a new table holding the entries of
`overlay` followed by those of `base`. -/
def apr_table_overlay (overlay base : apr_table_t) : apr_table_t := overlay ++ base

/-- APR `apr_table_do(comp, v, t, key, NULL)` for a callback that always returns 1:
the callback is run on every entry of `t` whose key matches, in table order. -/
def apr_table_do {α : Type} (comp : α → String → String → α) (v : α)
    (t : apr_table_t) (key : String) : α :=
  (t.filter (fun e => strcasecmp_eq e.1 key)).foldl (fun a e => comp a e.1 e.2) v

/-- The value of the last entry of `t` whose key matches. -/
def table_last : apr_table_t → String → Option String
  | [], _ => none
  | (k, v) :: t, key =>
    (table_last t key).or (if strcasecmp_eq k key then some v else none)

/-- APR `apr_table_compress(t, APR_OVERLAP_TABLES_SET)`, with `seen` the keys already
kept: of the entries sharing a key the first one stays in place, carrying the value of
the last one, and the others are dropped. -/
def apr_table_compress_from (seen : List String) : apr_table_t → apr_table_t
  | [] => []
  | (k, v) :: t =>
    if seen.any (fun s => strcasecmp_eq s k) then apr_table_compress_from seen t
    else (k, (table_last t k).getD v) :: apr_table_compress_from (k :: seen) t

/-- APR `apr_table_compress(t, APR_OVERLAP_TABLES_SET)`. -/
def apr_table_compress (t : apr_table_t) : apr_table_t := apr_table_compress_from [] t

/-- APR `apr_table_overlap(a, b, APR_OVERLAP_TABLES_SET)`: the entries of `b` are
appended to `a` (`apr_table_cat`) and the result is compressed, so that a key of `b`
overwrites the same key of `a`. -/
def apr_table_overlap (a b : apr_table_t) : apr_table_t := apr_table_compress (a ++ b)

/-! ## Data model -/

/-- The status `OK` of `httpd.h`. -/
def OK : Int := 0

/-- The status `DECLINED` of `httpd.h`. -/
def DECLINED : Int := -1

/-- The status `APR_SUCCESS` of `apr_errno.h`. -/
def APR_SUCCESS : Int := 0

/-- The parts of `apr_uri_t` that the cache reads; `none` is a `NULL` component. -/
structure apr_uri_t where
  scheme : Option String := none
  hostname : Option String := none
  port_str : Option String := none
  path : Option String := none
deriving DecidableEq, Repr

/-- The parts of `request_rec` that the cache reads or writes: the three header tables,
the content-type and modification-time attributes, and the request target. -/
structure request_rec where
  headers_in : apr_table_t := []
  headers_out : apr_table_t := []
  err_headers_out : apr_table_t := []
  content_type : Option String := none
  mtime : Int := 0
  proxyreq : Nat := 0
  parsed_uri : apr_uri_t := {}
  args : Option String := none
  uri : String := ""
deriving DecidableEq, Repr

/-- A `cache_handle_t`: the provider-owned object (named by its key) and the request and
response header snapshots that `recall_headers` fills in. -/
structure cache_handle_t where
  cache_obj : Option String := none
  req_hdrs : apr_table_t := []
  resp_hdrs : apr_table_t := []
deriving DecidableEq, Repr

/-- A `cache_provider`: the four capabilities of a storage backend. As in the provider
contract of the specification, a call reads the request and may rewrite the handle it
is given, and writes neither the request nor the request state; it returns its status
and the handle. -/
structure cache_provider where
  remove_url : cache_handle_t → Int
  create_entity : cache_handle_t → request_rec → String → Int → Int × cache_handle_t
  open_entity : cache_handle_t → request_rec → String → Int × cache_handle_t
  recall_headers : cache_handle_t → request_rec → Int × cache_handle_t

/-- A node of `cache_provider_list`; the list itself is a `List` of nodes. -/
structure cache_provider_list where
  provider_name : String
  provider : cache_provider

/-- The per-request `cache_request_rec`. -/
structure cache_request_rec where
  providers : List cache_provider_list := []
  provider : Option cache_provider := none
  provider_name : Option String := none
  handle : Option cache_handle_t := none
  stale_handle : Option cache_handle_t := none
  stale_headers : Option apr_table_t := none

/-- What the rest of the server supplies to this file, taken as parameters: the key
generator behind the `cache_generate_key` function pointer (status and key), the
freshness evaluator `ap_cache_check_freshness` (a pure predicate of handle and request,
as the specification has it), the HTTP date parser of APR, and the two steps by which
the server core folds a time into the modification-time attribute and normalises it. -/
structure cache_server where
  cache_generate_key : request_rec → Int × String
  ap_cache_check_freshness : cache_handle_t → request_rec → Bool
  apr_date_parse_http : String → Int
  update_mtime : Int → Int → Int
  rationalize_mtime : Int → Int

/-! ## `cache_remove_url` -/

/-- The outcome of `cache_remove_url`: the returned status, the request state, and the
`remove_url` calls made, each with the node called, the handle passed and the status
the provider returned. The status `rv` is `none` when the function does not return
because it dereferences a `NULL` pointer. -/
structure remove_result where
  rv : Option Int
  cache : cache_request_rec
  calls : List (cache_provider_list × cache_handle_t × Int)

/-- The `while (list)` loop of `cache_remove_url` (lines 50-53): every provider is called
with `h`; the status it returns is dropped by the C code and kept here in the record
of the call. -/
def cache_remove_url_loop (h : cache_handle_t) :
    List cache_provider_list → List (cache_provider_list × cache_handle_t × Int)
  | [] => []
  | node :: rest =>
    (node, h, node.provider.remove_url h) :: cache_remove_url_loop h rest

/-- The function `cache_remove_url`. The log call at lines 46-47 reads
`h->cache_obj->key` before the loop: with `h->cache_obj` `NULL` the function faults
there, having called no provider and written nothing. -/
def cache_remove_url (cache : cache_request_rec) : remove_result :=
  let list := cache.providers
  let h := if cache.stale_handle.isSome then cache.stale_handle else cache.handle
  match h with
  | none => { rv := some OK, cache := cache, calls := [] }
  | some h =>
    match h.cache_obj with
    | none => { rv := none, cache := cache, calls := [] }
    | some _key => { rv := some OK, cache := cache, calls := cache_remove_url_loop h list }

/-! ## `cache_create_entity` -/

/-- The outcome of `cache_create_entity`: the status, the request state, and the nodes
whose `create_entity` was called, in call order. -/
structure create_result where
  rv : Int
  cache : cache_request_rec
  calls : List cache_provider_list

/-- The `while (list)` loop of `cache_create_entity`; `h` is the one handle that every
provider is given. -/
def cache_create_entity_loop (r : request_rec) (key : String) (size : Int)
    (cache : cache_request_rec) :
    List cache_provider_list → cache_handle_t → create_result
  | [], _ => { rv := DECLINED, cache := cache, calls := [] }
  | node :: rest, h =>
    let res := node.provider.create_entity h r key size
    if res.1 = OK then
      { rv := OK
        cache := { cache with handle := some res.2, provider := some node.provider,
                              provider_name := some node.provider_name }
        calls := [node] }
    else if res.1 = DECLINED then
      let out := cache_create_entity_loop r key size cache rest res.2
      { out with calls := node :: out.calls }
    else
      { rv := res.1, cache := cache, calls := [node] }

/-- The function `cache_create_entity`; the handle starts zeroed (`apr_pcalloc`). -/
def cache_create_entity (srv : cache_server) (r : request_rec) (cache : cache_request_rec)
    (size : Int) : create_result :=
  let h : cache_handle_t := {}
  let k := srv.cache_generate_key r
  if k.1 ≠ APR_SUCCESS then { rv := k.1, cache := cache, calls := [] }
  else cache_create_entity_loop r k.2 size cache cache.providers h

/-! ## `ap_cache_accept_headers` -/

/-- Modelled from the spec: `ap_set_content_type` of the server core (not in `cache_storage.c`)
applies the value to the outgoing response's content-type attribute and touches no
header table. -/
def ap_set_content_type (r : request_rec) (ct : String) : request_rec :=
  { r with content_type := some ct }

/-- Modelled from the spec: `ap_update_mtime` of the server core (not in `cache_storage.c`) folds
a new time into the modification-time attribute and touches no header table; how the two
times combine is left to the server. -/
def ap_update_mtime (srv : cache_server) (r : request_rec) (t : Int) : request_rec :=
  { r with mtime := srv.update_mtime r.mtime t }

/-- Modelled from the spec: `ap_set_last_modified` of the server core (not in `cache_storage.c`)
applies the server's normalisation for outgoing responses to the modification-time
attribute and touches no header table. -/
def ap_set_last_modified (srv : cache_server) (r : request_rec) : request_rec :=
  { r with mtime := srv.rationalize_mtime r.mtime }

/-- The callback `set_cookie_doo_doo`: the entry is added to the table `v`. -/
def set_cookie_doo_doo (v : apr_table_t) (key val : String) : apr_table_t :=
  apr_table_addn v key val

/-- The function `ap_cache_accept_headers`: it rewrites the handle's response headers and
the request's response side. -/
def ap_cache_accept_headers (srv : cache_server) (h : cache_handle_t) (r : request_rec)
    (preserve_orig : Bool) : cache_handle_t × request_rec :=
  let v := apr_table_get h.resp_hdrs "Content-Type"
  let r := match v with
    | some v => ap_set_content_type r v
    | none => r
  let h := match v with
    | some _ => { h with resp_hdrs := apr_table_unset h.resp_hdrs "Content-Type" }
    | none => h
  let v := apr_table_get h.resp_hdrs "Last-Modified"
  let r := match v with
    | some v => ap_set_last_modified srv (ap_update_mtime srv r (srv.apr_date_parse_http v))
    | none => r
  let h := match v with
    | some _ => { h with resp_hdrs := apr_table_unset h.resp_hdrs "Last-Modified" }
    | none => h
  let cookie_table : apr_table_t := []
  let cookie_table := apr_table_do set_cookie_doo_doo cookie_table r.err_headers_out "Set-Cookie"
  let cookie_table := apr_table_do set_cookie_doo_doo cookie_table h.resp_hdrs "Set-Cookie"
  let r := { r with err_headers_out := apr_table_unset r.err_headers_out "Set-Cookie" }
  let h := { h with resp_hdrs := apr_table_unset h.resp_hdrs "Set-Cookie" }
  let r :=
    if preserve_orig then
      let hdr_copy := apr_table_copy h.resp_hdrs
      { r with headers_out := apr_table_overlap hdr_copy r.headers_out }
    else
      { r with headers_out := apr_table_overlap r.headers_out h.resp_hdrs }
  let r :=
    if !apr_is_empty_table cookie_table then
      { r with err_headers_out := apr_table_overlay r.err_headers_out cookie_table }
    else r
  (h, r)

/-! ## `cache_select` -/

/-- The separator test of the Vary loop: `apr_isspace(c) || c == ','`. -/
def vary_sep (c : Char) : Bool := apr_isspace c || c == ','

/-- The comparison of one Vary-named header (lines 236-250): `h1 == h2` holds when both
are `NULL`; otherwise both must be present and `strcmp`-equal. -/
def vary_header_match (headers_in req_hdrs : apr_table_t) (name : String) : Bool :=
  match apr_table_get headers_in name, apr_table_get req_hdrs name with
  | none, none => true
  | some h1, some h2 => h1 == h2
  | _, _ => false

/-- The loop `while (vary && *vary)` over the rest of the Vary value: `name` runs up to
the first separator, the separators after it are overwritten with NUL and skipped, and
the header `name` is compared. The result is `false` at the first mismatch (the
`return DECLINED`) and `true` when the value is used up. Each round consumes at least
one character, so `fuel` beyond the length of the value is never used. -/
def vary_loop (headers_in req_hdrs : apr_table_t) : Nat → List Char → Bool
  | _, [] => true
  | 0, _ :: _ => false
  | fuel + 1, c :: cs =>
    let name := (c :: cs).takeWhile (fun x => !vary_sep x)
    let vary := ((c :: cs).dropWhile (fun x => !vary_sep x)).dropWhile vary_sep
    if vary_header_match headers_in req_hdrs (String.mk name) then
      vary_loop headers_in req_hdrs fuel vary
    else false

/-- The Vary validation of `cache_select` (lines 219-251); `vary` is the result of
`apr_table_get(h->resp_hdrs, "Vary")`. -/
def vary_check (headers_in req_hdrs : apr_table_t) (vary : Option String) : Bool :=
  match vary with
  | none => true
  | some v => vary_loop headers_in req_hdrs v.data.length v.data

/-- The header names that the Vary loop isolates, in the order in which it compares
them: the same walk as `vary_loop`, collecting `name` instead of comparing it. -/
def vary_names : Nat → List Char → List String
  | _, [] => []
  | 0, _ :: _ => []
  | fuel + 1, c :: cs =>
    String.mk ((c :: cs).takeWhile (fun x => !vary_sep x)) ::
      vary_names fuel (((c :: cs).dropWhile (fun x => !vary_sep x)).dropWhile vary_sep)

/-- The pieces of a Vary value split on commas and whitespace, the empty ones dropped. -/
def split_pieces (v : List Char) : List (List Char) :=
  (v.splitOnP vary_sep).filter (fun piece => !piece.isEmpty)

/-- The reading of the specification: the Vary value is a comma/space-separated list of
header names, that is, the non-empty pieces left by splitting it on commas and
whitespace. -/
def spec_vary_names (v : String) : List String :=
  (split_pieces v.data).map String.mk

/-- The outcome of `cache_select`: the status, the request, the request state, and the
nodes whose `open_entity` was called, in call order. -/
structure select_result where
  rv : Int
  r : request_rec
  cache : cache_request_rec
  calls : List cache_provider_list

/-- The `case OK:` arm of `cache_select` (lines 192-305) for the node whose open
succeeded, with `h` as that open left it. -/
def cache_select_opened (srv : cache_server) (r : request_rec) (cache : cache_request_rec)
    (node : cache_provider_list) (h : cache_handle_t) : select_result :=
  let rc := node.provider.recall_headers h r
  if rc.1 ≠ APR_SUCCESS then { rv := DECLINED, r := r, cache := cache, calls := [node] }
  else
    let h := rc.2
    let vary := apr_table_get h.resp_hdrs "Vary"
    if !vary_check r.headers_in h.req_hdrs vary then
      { rv := DECLINED, r := r, cache := cache, calls := [node] }
    else
      let cache := { cache with provider := some node.provider,
                                provider_name := some node.provider_name }
      let fresh := srv.ap_cache_check_freshness h r
      if !fresh then
        let cache := { cache with stale_headers := some (apr_table_copy r.headers_in) }
        let hin := apr_table_unset r.headers_in "If-Match"
        let hin := apr_table_unset hin "If-Modified-Since"
        let hin := apr_table_unset hin "If-None-Match"
        let hin := apr_table_unset hin "If-Range"
        let hin := apr_table_unset hin "If-Unmodified-Since"
        let etag := apr_table_get h.resp_hdrs "ETag"
        let lastmod := apr_table_get h.resp_hdrs "Last-Modified"
        if etag.isSome || lastmod.isSome then
          let hin := match etag with
            | some e => apr_table_set hin "If-None-Match" e
            | none => hin
          let hin := match lastmod with
            | some l => apr_table_set hin "If-Modified-Since" l
            | none => hin
          { rv := DECLINED, r := { r with headers_in := hin },
            cache := { cache with stale_handle := some h }, calls := [node] }
        else
          { rv := DECLINED, r := { r with headers_in := hin }, cache := cache, calls := [node] }
      else
        let hr := ap_cache_accept_headers srv h r false
        { rv := OK, r := hr.2, cache := { cache with handle := some hr.1 }, calls := [node] }

/-- The `while (list)` loop of `cache_select`; `h` is the one handle that every provider
is given. -/
def cache_select_loop (srv : cache_server) (r : request_rec) (key : String)
    (cache : cache_request_rec) :
    List cache_provider_list → cache_handle_t → select_result
  | [], _ => { rv := DECLINED, r := r, cache := cache, calls := [] }
  | node :: rest, h =>
    let res := node.provider.open_entity h r key
    if res.1 = OK then cache_select_opened srv r cache node res.2
    else if res.1 = DECLINED then
      let out := cache_select_loop srv r key cache rest res.2
      { out with calls := node :: out.calls }
    else
      { rv := res.1, r := r, cache := cache, calls := [node] }

/-- The function `cache_select`. The handle comes from `apr_palloc`, so its first
contents `h0` are whatever the pool held. -/
def cache_select (srv : cache_server) (r : request_rec) (cache : cache_request_rec)
    (h0 : cache_handle_t) : select_result :=
  let k := srv.cache_generate_key r
  if k.1 ≠ APR_SUCCESS then { rv := k.1, r := r, cache := cache, calls := [] }
  else cache_select_loop srv r k.2 cache cache.providers h0

/-! ## `cache_generate_key_default` -/

/-- The value `PROXYREQ_NONE` of `httpd.h`: not a proxy request. -/
def PROXYREQ_NONE : Nat := 0

/-- The value `PROXYREQ_PROXY` of `httpd.h`: a forward proxy request. -/
def PROXYREQ_PROXY : Nat := 1

/-- The value `PROXYREQ_REVERSE` of `httpd.h`: a reverse proxy request. -/
def PROXYREQ_REVERSE : Nat := 2

/-- What the server core and APR-util supply to the key generator, taken as parameters:
`ap_get_server_name` (`none` for `NULL`), `ap_get_server_port` and
`apr_uri_port_of_scheme` (both an `apr_port_t`, 0 for a scheme with no registered
port). -/
structure key_server where
  ap_get_server_name : request_rec → Option String
  ap_get_server_port : request_rec → Nat
  apr_uri_port_of_scheme : String → Nat

/-- APR `apr_pstrcat(p, a, b, ..., NULL)`: the concatenation of the arguments up to the
first `NULL` one; whatever follows a `NULL` argument is not read. -/
def apr_pstrcat : List (Option String) → String
  | [] => ""
  | none :: _ => ""
  | some s :: rest => s ++ apr_pstrcat rest

/-- The copy loops of `cache_generate_key_default` (lines 354-357, 372-375, 388-392):
every character is passed through `apr_tolower`. -/
def lower_copy (s : String) : String := String.mk (s.data.map apr_tolower)

/-- The `%u` conversion of `apr_psprintf` on a port number: its decimal digits. -/
def format_u (n : Nat) : String := Nat.repr n

/-- The variable `hostname` of `cache_generate_key_default` (lines 345-365). -/
def key_hostname (env : key_server) (r : request_rec) : String :=
  if r.proxyreq = 0 ∨ r.proxyreq = PROXYREQ_REVERSE then
    match env.ap_get_server_name r with
    | some name => name
    | none => "_default_"
  else
    match r.parsed_uri.hostname with
    | some hn => lower_copy hn
    | none => "_default_"

/-- The variable `scheme` of `cache_generate_key_default` (lines 370-379). -/
def key_scheme (r : request_rec) : String :=
  if r.proxyreq ≠ 0 then
    match r.parsed_uri.scheme with
    | some sch => lower_copy sch
    | none => "http"
  else "http"

/-- The variable `port_str` of `cache_generate_key_default` (lines 386-409). -/
def key_port_str (env : key_server) (r : request_rec) : String :=
  if r.proxyreq ≠ 0 then
    match r.parsed_uri.port_str with
    | some ps => ":" ++ lower_copy ps
    | none =>
      if env.apr_uri_port_of_scheme (key_scheme r) ≠ 0 then
        ":" ++ format_u (env.apr_uri_port_of_scheme (key_scheme r))
      else ""
  else
    ":" ++ format_u (env.ap_get_server_port r)

/-- The function `cache_generate_key_default`: the status and the key stored in `*key`. -/
def cache_generate_key_default (env : key_server) (r : request_rec) : Int × String :=
  let hostname := key_hostname env r
  let scheme := key_scheme r
  let port_str := key_port_str env r
  let key := apr_pstrcat [some scheme, some "://", some hostname, some port_str,
    r.parsed_uri.path, some "?", r.args]
  (APR_SUCCESS, key)

/-! ## Provider chains -/

/-- A run of provider calls over `chain` in which every call returns `DECLINED`: the
handle is passed from call to call and the result is the handle after the last one;
`none` when some call returns another status. -/
def chain_declines (call : cache_provider_list → cache_handle_t → Int × cache_handle_t) :
    List cache_provider_list → cache_handle_t → Option cache_handle_t
  | [], h => some h
  | node :: rest, h =>
    if (call node h).1 = DECLINED then chain_declines call rest (call node h).2 else none

/-- The `create_entity` call that `cache_create_entity` makes on a node. -/
def create_call (r : request_rec) (key : String) (size : Int) (node : cache_provider_list)
    (h : cache_handle_t) : Int × cache_handle_t :=
  node.provider.create_entity h r key size

/-- The `open_entity` call that `cache_select` makes on a node. -/
def open_call (r : request_rec) (key : String) (node : cache_provider_list)
    (h : cache_handle_t) : Int × cache_handle_t :=
  node.provider.open_entity h r key

/-! ## Example providers and requests -/

/-- A provider that declines every create and open. -/
def decline_provider : cache_provider :=
  { remove_url := fun _ => DECLINED
    create_entity := fun h _ _ _ => (DECLINED, h)
    open_entity := fun h _ _ => (DECLINED, h)
    recall_headers := fun h _ => (APR_SUCCESS, h) }

/-- A provider that fails every call with status 500. -/
def error_provider : cache_provider :=
  { remove_url := fun _ => 500
    create_entity := fun h _ _ _ => (500, h)
    open_entity := fun h _ _ => (500, h)
    recall_headers := fun h _ => (500, h) }

/-- A provider holding one entity with the given stored request and response headers. -/
def entity_provider (req_hdrs resp_hdrs : apr_table_t) : cache_provider :=
  { remove_url := fun _ => OK
    create_entity := fun h _ key _ => (OK, { h with cache_obj := some key })
    open_entity := fun h _ key => (OK, { h with cache_obj := some key })
    recall_headers := fun h _ =>
      (APR_SUCCESS, { h with req_hdrs := req_hdrs, resp_hdrs := resp_hdrs }) }

/-- A provider whose open succeeds and whose header recall fails. -/
def broken_provider : cache_provider :=
  { remove_url := fun _ => OK
    create_entity := fun h _ key _ => (OK, { h with cache_obj := some key })
    open_entity := fun h _ key => (OK, { h with cache_obj := some key })
    recall_headers := fun h _ => (500, h) }

/-- A server whose key is the request URI and whose freshness verdict is fixed. -/
def example_server (fresh : Bool) : cache_server :=
  { cache_generate_key := fun r => (APR_SUCCESS, r.uri)
    ap_cache_check_freshness := fun _ _ => fresh
    apr_date_parse_http := fun v => v.length
    update_mtime := fun old new => max old new
    rationalize_mtime := fun t => t }

/-- The chain of the examples: a declining provider, a provider holding an entity whose
response varies on Accept-Language, and a failing provider that must never be reached. -/
def example_chain : List cache_provider_list :=
  [ { provider_name := "mem", provider := decline_provider },
    { provider_name := "disk",
      provider := entity_provider [("Accept-Language", "en")]
        [("Vary", "Accept-Language"), ("ETag", "\"abc\""), ("Content-Type", "text/html")] },
    { provider_name := "remote", provider := error_provider } ]

/-- A chain whose second provider fails. -/
def failing_chain : List cache_provider_list :=
  [ { provider_name := "mem", provider := decline_provider },
    { provider_name := "disk", provider := error_provider },
    { provider_name := "remote", provider := entity_provider [] [] } ]

/-- A chain in which every provider declines. -/
def declining_chain : List cache_provider_list :=
  [ { provider_name := "mem", provider := decline_provider },
    { provider_name := "disk", provider := decline_provider } ]

/-- A chain of three providers of which the first and the last hold the entity (their
`remove_url` returns OK) and the middle one does not (its `remove_url` fails). -/
def removal_chain : List cache_provider_list :=
  [ { provider_name := "mem", provider := entity_provider [] [] },
    { provider_name := "disk", provider := error_provider },
    { provider_name := "remote", provider := entity_provider [] [] } ]

/-- A request state over `removal_chain` with both an active and a stale handle. -/
def removal_state : cache_request_rec :=
  { providers := removal_chain
    handle := some { cache_obj := some "/new" }
    stale_handle := some { cache_obj := some "/old" } }

/-- The five conditional-request header names that `cache_select` clears (lines 272-276). -/
def conditional_headers : List String :=
  ["If-Match", "If-Modified-Since", "If-None-Match", "If-Range", "If-Unmodified-Since"]

/-- A chain whose second provider holds the English variant and whose third provider
holds the French one. -/
def variant_chain : List cache_provider_list :=
  [ { provider_name := "mem", provider := decline_provider },
    { provider_name := "disk",
      provider := entity_provider [("Accept-Language", "en")] [("Vary", "Accept-Language")] },
    { provider_name := "remote",
      provider := entity_provider [("Accept-Language", "fr")] [("Vary", "Accept-Language")] } ]

/-- A chain whose second provider opens an entity and cannot recall its headers. -/
def broken_chain : List cache_provider_list :=
  [ { provider_name := "mem", provider := decline_provider },
    { provider_name := "disk", provider := broken_provider },
    { provider_name := "remote", provider := entity_provider [] [] } ]

/-- A request for `/a` that accepts English and carries conditionals of its own. -/
def english_request : request_rec :=
  { uri := "/a"
    headers_in := [("Accept-Language", "en"), ("If-Match", "\"x\""),
      ("if-none-match", "\"y\""), ("If-Range", "\"z\""), ("Host", "example.org")] }

/-- A request for `/a` that accepts French. -/
def french_request : request_rec :=
  { uri := "/a", headers_in := [("Accept-Language", "fr")] }

/-- A handle whose cached response carries two Warning entries. -/
def warning_handle : cache_handle_t :=
  { cache_obj := some "/a"
    resp_hdrs := [("Warning", "110 - \"Response is stale\""),
      ("Warning", "111 - \"Revalidation failed\""), ("Server", "origin")] }

/-- A chain of one provider whose entity has a Vary value that begins with a comma. -/
def comma_vary_chain : List cache_provider_list :=
  [ { provider_name := "disk",
      provider := entity_provider [("Accept-Language", "en")]
        [("Vary", ",Accept-Language"), ("ETag", "\"abc\"")] } ]

/-- A request for `/a` that accepts English and carries a header line with an empty
field name. -/
def empty_name_request : request_rec :=
  { uri := "/a", headers_in := [("", "x"), ("Accept-Language", "en")] }

/-- A server named `www.example.org` that listens on port 8080 and knows the default
ports of http and https. -/
def example_key_server : key_server :=
  { ap_get_server_name := fun _ => some "www.Example.org"
    ap_get_server_port := fun _ => 8080
    apr_uri_port_of_scheme := fun sch =>
      if sch = "http" then 80 else if sch = "https" then 443 else 0 }

/-- A server with no canonical name. -/
def nameless_key_server : key_server :=
  { ap_get_server_name := fun _ => none
    ap_get_server_port := fun _ => 80
    apr_uri_port_of_scheme := fun _ => 0 }

/-- A forward proxy request for `HTTP://HOST.example/index.html?x=1`. -/
def forward_request : request_rec :=
  { proxyreq := PROXYREQ_PROXY
    parsed_uri := { scheme := some "HTTP", hostname := some "HOST.example",
                    path := some "/index.html" }
    args := some "x=1" }

/-- A local request for `/index.html?x=1`. -/
def local_request : request_rec :=
  { parsed_uri := { path := some "/index.html" }
    args := some "x=1" }

/-- A handle whose cached response carries two cookies. -/
def cookie_handle : cache_handle_t :=
  { cache_obj := some "/a"
    resp_hdrs := [("Set-Cookie", "a=1"), ("Server", "origin"), ("set-cookie", "b=2")] }

/-- A request whose error-path headers already carry a cookie. -/
def cookie_request : request_rec :=
  { uri := "/a"
    err_headers_out := [("Set-Cookie", "e=0"), ("X-Error", "1")] }

/-- A handle whose cached response carries Content-Type and Last-Modified. -/
def dated_handle : cache_handle_t :=
  { cache_obj := some "/a"
    resp_hdrs := [("Content-Type", "text/html"),
      ("Last-Modified", "Sun, 06 Nov 1994 08:49:37 GMT"), ("ETag", "\"abc\"")] }

/-- The well-formedness of key components that the key-uniqueness claim assumes: the
scheme holds no colon, the host no colon and no slash, the port segment is empty or a
colon followed by characters other than a slash, and the path starts with a slash and
holds no question mark. -/
def key_components_wf (scheme host port path : String) : Prop :=
  ':' ∉ scheme.data ∧ ':' ∉ host.data ∧ '/' ∉ host.data ∧
    (port = "" ∨ ∃ digits : String, port = ":" ++ digits ∧ '/' ∉ digits.data) ∧
    (∃ rest : String, path = "/" ++ rest) ∧ '?' ∉ path.data

/-- The same forward proxy request written in lower case. -/
def lower_forward_request : request_rec :=
  { proxyreq := PROXYREQ_PROXY
    parsed_uri := { scheme := some "http", hostname := some "host.example",
                    path := some "/index.html" }
    args := some "x=1" }

/-- A provider that holds no entity and accepts every new one: its open declines and
its create succeeds. -/
def accepting_provider : cache_provider :=
  { remove_url := fun _ => OK
    create_entity := fun h _ key _ => (OK, { h with cache_obj := some key })
    open_entity := fun h _ _ => (DECLINED, h)
    recall_headers := fun h _ => (APR_SUCCESS, h) }

/-- A chain whose first provider accepts every new entity and whose second provider
holds the entity of the examples. -/
def rebinding_chain : List cache_provider_list :=
  [ { provider_name := "mem", provider := accepting_provider },
    { provider_name := "disk",
      provider := entity_provider [("Accept-Language", "en")]
        [("Vary", "Accept-Language"), ("ETag", "\"abc\""), ("Content-Type", "text/html")] } ]

/-- A provider whose create succeeds and leaves the handle without a cache object. -/
def bare_provider : cache_provider :=
  { remove_url := fun _ => OK
    create_entity := fun h _ _ _ => (OK, h)
    open_entity := fun h _ _ => (DECLINED, h)
    recall_headers := fun h _ => (APR_SUCCESS, h) }

/-- A chain of two providers that leave the handle without a cache object. -/
def bare_chain : List cache_provider_list :=
  [ { provider_name := "mem", provider := bare_provider },
    { provider_name := "disk", provider := bare_provider } ]

/-- A server whose key generator fails with status 70014. -/
def keyless_server : cache_server :=
  { cache_generate_key := fun _ => (70014, "")
    ap_cache_check_freshness := fun _ _ => true
    apr_date_parse_http := fun v => v.length
    update_mtime := fun old new => max old new
    rationalize_mtime := fun t => t }

/-- A reverse proxy request for `/app` with the explicit port 8443. -/
def reverse_port_request : request_rec :=
  { proxyreq := PROXYREQ_REVERSE
    parsed_uri := { port_str := some "8443", path := some "/app" } }

/-- A forward proxy request for `gopher://host.example/1`, a scheme with no registered
port. -/
def gopher_request : request_rec :=
  { proxyreq := PROXYREQ_PROXY
    parsed_uri := { scheme := some "gopher", hostname := some "host.example",
                    path := some "/1" } }

/-! ## Lemmas on the chain loops -/

theorem declined_ne_ok : ¬ DECLINED = OK := by decide

theorem create_loop_declined_prefix (r : request_rec) (key : String) (size : Int)
    (cache : cache_request_rec) (pre rest : List cache_provider_list)
    (h hi : cache_handle_t)
    (hpre : chain_declines (create_call r key size) pre h = some hi) :
    (cache_create_entity_loop r key size cache (pre ++ rest) h).rv =
        (cache_create_entity_loop r key size cache rest hi).rv ∧
      (cache_create_entity_loop r key size cache (pre ++ rest) h).cache =
        (cache_create_entity_loop r key size cache rest hi).cache ∧
      (cache_create_entity_loop r key size cache (pre ++ rest) h).calls =
        pre ++ (cache_create_entity_loop r key size cache rest hi).calls := by
  induction pre generalizing h with
  | nil =>
    simp only [chain_declines, Option.some.injEq] at hpre
    subst hpre
    simp
  | cons node pre ih =>
    simp only [chain_declines, create_call] at hpre
    split at hpre
    · rename_i hd
      obtain ⟨h1, h2, h3⟩ := ih _ hpre
      simp [cache_create_entity_loop, hd, declined_ne_ok, h1, h2, h3]
    · cases hpre

theorem select_loop_declined_prefix (srv : cache_server) (r : request_rec) (key : String)
    (cache : cache_request_rec) (pre rest : List cache_provider_list)
    (h hi : cache_handle_t)
    (hpre : chain_declines (open_call r key) pre h = some hi) :
    (cache_select_loop srv r key cache (pre ++ rest) h).rv =
        (cache_select_loop srv r key cache rest hi).rv ∧
      (cache_select_loop srv r key cache (pre ++ rest) h).r =
        (cache_select_loop srv r key cache rest hi).r ∧
      (cache_select_loop srv r key cache (pre ++ rest) h).cache =
        (cache_select_loop srv r key cache rest hi).cache ∧
      (cache_select_loop srv r key cache (pre ++ rest) h).calls =
        pre ++ (cache_select_loop srv r key cache rest hi).calls := by
  induction pre generalizing h with
  | nil =>
    simp only [chain_declines, Option.some.injEq] at hpre
    subst hpre
    simp
  | cons node pre ih =>
    simp only [chain_declines, open_call] at hpre
    split at hpre
    · rename_i hd
      obtain ⟨h1, h2, h3, h4⟩ := ih _ hpre
      simp [cache_select_loop, hd, declined_ne_ok, h1, h2, h3, h4]
    · cases hpre

theorem cache_create_entity_eq_loop (srv : cache_server) (r : request_rec)
    (cache : cache_request_rec) (size : Int) (key : String)
    (chain : List cache_provider_list)
    (hkey : srv.cache_generate_key r = (APR_SUCCESS, key))
    (hchain : cache.providers = chain) :
    cache_create_entity srv r cache size =
      cache_create_entity_loop r key size cache chain {} := by
  simp only [cache_create_entity, hkey, ne_eq, not_true_eq_false, if_false]
  rw [hchain]

theorem cache_select_eq_loop (srv : cache_server) (r : request_rec)
    (cache : cache_request_rec) (h0 : cache_handle_t) (key : String)
    (chain : List cache_provider_list)
    (hkey : srv.cache_generate_key r = (APR_SUCCESS, key))
    (hchain : cache.providers = chain) :
    cache_select srv r cache h0 = cache_select_loop srv r key cache chain h0 := by
  simp only [cache_select, hkey, ne_eq, not_true_eq_false, if_false]
  rw [hchain]

theorem remove_loop_calls (h : cache_handle_t) (chain : List cache_provider_list) :
    cache_remove_url_loop h chain =
      chain.map (fun node => (node, h, node.provider.remove_url h)) := by
  induction chain with
  | nil => rfl
  | cons node rest ih => simp [cache_remove_url_loop, ih]

theorem cache_remove_url_cache (cache : cache_request_rec) :
    (cache_remove_url cache).cache = cache := by
  simp only [cache_remove_url]
  split
  · rfl
  · split <;> rfl

theorem cache_select_opened_calls (srv : cache_server) (r : request_rec)
    (cache : cache_request_rec) (node : cache_provider_list) (h : cache_handle_t) :
    (cache_select_opened srv r cache node h).calls = [node] := by
  unfold cache_select_opened
  simp only []
  repeat (first | rfl | split)

theorem cache_select_first_open (srv : cache_server) (r : request_rec)
    (cache : cache_request_rec) (h0 : cache_handle_t) (key : String)
    (pre post : List cache_provider_list) (node : cache_provider_list)
    (hi h1 : cache_handle_t)
    (hkey : srv.cache_generate_key r = (APR_SUCCESS, key))
    (hchain : cache.providers = pre ++ node :: post)
    (hpre : chain_declines (open_call r key) pre h0 = some hi)
    (hopen : node.provider.open_entity hi r key = (OK, h1)) :
    (cache_select srv r cache h0).rv = (cache_select_opened srv r cache node h1).rv ∧
      (cache_select srv r cache h0).r = (cache_select_opened srv r cache node h1).r ∧
      (cache_select srv r cache h0).cache = (cache_select_opened srv r cache node h1).cache ∧
      (cache_select srv r cache h0).calls = pre ++ [node] := by
  obtain ⟨e1, e2, e3, e4⟩ :=
    select_loop_declined_prefix srv r key cache pre (node :: post) h0 hi hpre
  rw [cache_select_eq_loop srv r cache h0 key _ hkey hchain, e1, e2, e3, e4]
  simp [cache_select_loop, hopen, cache_select_opened_calls]

/-! ## Lemmas on APR tables -/

theorem strcasecmp_eq_iff (a b : String) :
    strcasecmp_eq a b = true ↔ a.data.map apr_tolower = b.data.map apr_tolower := by
  simp [strcasecmp_eq]

theorem strcasecmp_eq_false_iff (a b : String) :
    strcasecmp_eq a b = false ↔ a.data.map apr_tolower ≠ b.data.map apr_tolower := by
  simp [strcasecmp_eq]

theorem strcasecmp_eq_refl (a : String) : strcasecmp_eq a a = true := by
  simp [strcasecmp_eq]

theorem strcasecmp_eq_comm (a b : String) : strcasecmp_eq a b = strcasecmp_eq b a := by
  cases hab : strcasecmp_eq a b with
  | true =>
    rw [strcasecmp_eq_iff] at hab
    exact ((strcasecmp_eq_iff b a).2 hab.symm).symm
  | false =>
    rw [strcasecmp_eq_false_iff] at hab
    exact ((strcasecmp_eq_false_iff b a).2 (fun h => hab h.symm)).symm

theorem strcasecmp_eq_congr_left (a b c : String) (hab : strcasecmp_eq a b = true) :
    strcasecmp_eq a c = strcasecmp_eq b c := by
  rw [strcasecmp_eq_iff] at hab
  simp [strcasecmp_eq, hab]

theorem strcasecmp_eq_congr_right (a b c : String) (hab : strcasecmp_eq a b = true) :
    strcasecmp_eq c a = strcasecmp_eq c b := by
  rw [strcasecmp_eq_iff] at hab
  simp [strcasecmp_eq, hab]

theorem apr_table_get_unset (t : apr_table_t) (k n : String) :
    apr_table_get (apr_table_unset t k) n =
      if strcasecmp_eq k n then none else apr_table_get t n := by
  induction t with
  | nil => simp [apr_table_unset, apr_table_get]
  | cons e t ih =>
    obtain ⟨k1, v1⟩ := e
    simp only [apr_table_unset] at ih
    cases h1 : strcasecmp_eq k1 k with
    | true =>
      simp only [apr_table_unset, List.filter, h1, Bool.not_true, apr_table_get, ih,
        strcasecmp_eq_congr_left k1 k n h1]
      split <;> rfl
    | false =>
      simp only [apr_table_unset, List.filter, h1, Bool.not_false, apr_table_get, ih]
      cases h2 : strcasecmp_eq k1 n with
      | true =>
        have : strcasecmp_eq k n = false := by
          rw [strcasecmp_eq_comm k n, ← strcasecmp_eq_congr_left k1 n k h2, h1]
        simp [this]
      | false => simp

theorem filter_key_unset (t : apr_table_t) (k n : String)
    (hkn : strcasecmp_eq k n = false) :
    (apr_table_unset t k).filter (fun e => strcasecmp_eq e.1 n) =
      t.filter (fun e => strcasecmp_eq e.1 n) := by
  simp only [apr_table_unset, List.filter_filter]
  apply List.filter_congr
  intro e _
  cases h2 : strcasecmp_eq e.1 n with
  | true =>
    have : strcasecmp_eq e.1 k = false := by
      rw [strcasecmp_eq_congr_left e.1 n k h2, strcasecmp_eq_comm, hkn]
    simp [this]
  | false => simp

theorem apr_table_unset_of_get_none (t : apr_table_t) (k : String)
    (h : apr_table_get t k = none) : apr_table_unset t k = t := by
  induction t with
  | nil => rfl
  | cons e t ih =>
    obtain ⟨k1, v1⟩ := e
    simp only [apr_table_get] at h
    split at h
    · cases h
    · rename_i hk
      simp only [apr_table_unset] at ih
      simp [apr_table_unset, List.filter, hk, ih h]

theorem table_last_congr (t : apr_table_t) (k n : String)
    (hkn : strcasecmp_eq k n = true) : table_last t k = table_last t n := by
  induction t with
  | nil => rfl
  | cons e t ih =>
    obtain ⟨k1, v1⟩ := e
    simp only [table_last, ih, strcasecmp_eq_congr_right k n k1 hkn]

theorem table_last_append (a b : apr_table_t) (n : String) :
    table_last (a ++ b) n = (table_last b n).or (table_last a n) := by
  induction a with
  | nil => simp [table_last, Option.or_none]
  | cons e a ih =>
    obtain ⟨k1, v1⟩ := e
    have hstep : table_last ((k1, v1) :: (a ++ b)) n =
        (table_last (a ++ b) n).or (if strcasecmp_eq k1 n then some v1 else none) := rfl
    rw [List.cons_append, hstep, ih, Option.or_assoc]
    rfl

theorem table_last_unset (t : apr_table_t) (k n : String) :
    table_last (apr_table_unset t k) n =
      if strcasecmp_eq k n then none else table_last t n := by
  induction t with
  | nil => simp [apr_table_unset, table_last]
  | cons e t ih =>
    obtain ⟨k1, v1⟩ := e
    simp only [apr_table_unset] at ih
    rcases Bool.eq_false_or_eq_true (strcasecmp_eq k1 k) with h1 | h1
    · simp only [apr_table_unset, List.filter, h1, Bool.not_true, table_last, ih,
        strcasecmp_eq_congr_left k1 k n h1]
      rcases Bool.eq_false_or_eq_true (strcasecmp_eq k n) with h2 | h2 <;>
        simp [h2, Option.or_none]
    · simp only [apr_table_unset, List.filter, h1, Bool.not_false, table_last, ih]
      rcases Bool.eq_false_or_eq_true (strcasecmp_eq k1 n) with h2 | h2
      · have h3 : strcasecmp_eq k n = false := by
          rw [strcasecmp_eq_comm k n, ← strcasecmp_eq_congr_left k1 n k h2, h1]
        simp [h3]
      · rcases Bool.eq_false_or_eq_true (strcasecmp_eq k n) with h3 | h3 <;>
          simp [h2, h3]

theorem any_seen_congr (seen : List String) (k n : String)
    (hkn : strcasecmp_eq k n = true) :
    seen.any (fun s => strcasecmp_eq s k) = seen.any (fun s => strcasecmp_eq s n) := by
  induction seen with
  | nil => rfl
  | cons s seen ih => simp only [List.any_cons, ih, strcasecmp_eq_congr_right k n s hkn]

theorem apr_table_get_compress_from (seen : List String) (t : apr_table_t) (n : String) :
    apr_table_get (apr_table_compress_from seen t) n =
      if seen.any (fun s => strcasecmp_eq s n) then none else table_last t n := by
  induction t generalizing seen with
  | nil => simp [apr_table_compress_from, apr_table_get, table_last]
  | cons e t ih =>
    obtain ⟨k, v⟩ := e
    rcases Bool.eq_false_or_eq_true (seen.any (fun s => strcasecmp_eq s k)) with hs | hs
    · simp only [apr_table_compress_from, hs, if_true, ih, table_last]
      rcases Bool.eq_false_or_eq_true (seen.any (fun s => strcasecmp_eq s n)) with hn | hn
      · simp [hn]
      · have hkn : strcasecmp_eq k n = false := by
          rcases Bool.eq_false_or_eq_true (strcasecmp_eq k n) with hkn | hkn
          · rw [any_seen_congr seen k n hkn, hn] at hs; cases hs
          · exact hkn
        simp [hn, hkn, Option.or_none]
    · simp only [apr_table_compress_from, hs, Bool.false_eq_true, if_false, apr_table_get, ih,
        table_last, List.any_cons]
      rcases Bool.eq_false_or_eq_true (strcasecmp_eq k n) with hkn | hkn
      · have hn : seen.any (fun s => strcasecmp_eq s n) = false := by
          rw [← any_seen_congr seen k n hkn, hs]
        rw [table_last_congr t k n hkn]
        cases table_last t n <;> simp [hn, hkn]
      · simp [hkn, Option.or_none]

theorem count_compress_from (seen : List String) (t : apr_table_t) (n : String) :
    ((apr_table_compress_from seen t).filter (fun e => strcasecmp_eq e.1 n)).length ≤
      if seen.any (fun s => strcasecmp_eq s n) then 0 else 1 := by
  induction t generalizing seen with
  | nil => simp [apr_table_compress_from]
  | cons e t ih =>
    obtain ⟨k, v⟩ := e
    rcases Bool.eq_false_or_eq_true (seen.any (fun s => strcasecmp_eq s k)) with hs | hs
    · simp only [apr_table_compress_from, hs, if_true]
      exact ih seen
    · simp only [apr_table_compress_from, hs, Bool.false_eq_true, if_false]
      have ih2 := ih (k :: seen)
      simp only [List.any_cons] at ih2
      rcases Bool.eq_false_or_eq_true (strcasecmp_eq k n) with hkn | hkn
      · have hn : seen.any (fun s => strcasecmp_eq s n) = false := by
          rw [← any_seen_congr seen k n hkn, hs]
        simp only [hkn, Bool.true_or, if_true, Nat.le_zero, List.length_eq_zero] at ih2
        simp [List.filter, hkn, hn, ih2]
      · simp only [hkn, Bool.false_or] at ih2
        simpa [List.filter, hkn] using ih2

theorem apr_table_get_overlap (a b : apr_table_t) (n : String) :
    apr_table_get (apr_table_overlap a b) n = (table_last b n).or (table_last a n) := by
  simp [apr_table_overlap, apr_table_compress, apr_table_get_compress_from, table_last_append]

theorem count_overlap (a b : apr_table_t) (n : String) :
    ((apr_table_overlap a b).filter (fun e => strcasecmp_eq e.1 n)).length ≤ 1 := by
  simpa [apr_table_overlap, apr_table_compress] using count_compress_from [] (a ++ b) n

theorem table_last_eq_none_of_all (t : apr_table_t) (n : String)
    (hall : ∀ e ∈ t, strcasecmp_eq e.1 n = false) : table_last t n = none := by
  induction t with
  | nil => rfl
  | cons e t ih =>
    obtain ⟨k, v⟩ := e
    have h2 := hall (k, v) (List.mem_cons_self _ _)
    simp only at h2
    simp [table_last, h2, ih (fun e he => hall e (List.mem_cons_of_mem _ he))]

theorem table_last_eq_get_of_unique (t : apr_table_t) (n : String)
    (h : (t.filter (fun e => strcasecmp_eq e.1 n)).length ≤ 1) :
    table_last t n = apr_table_get t n := by
  induction t with
  | nil => rfl
  | cons e t ih =>
    obtain ⟨k, v⟩ := e
    rcases Bool.eq_false_or_eq_true (strcasecmp_eq k n) with hkn | hkn
    · simp only [List.filter, hkn, List.length_cons] at h
      have h0 : t.filter (fun e => strcasecmp_eq e.1 n) = [] :=
        List.length_eq_zero.1 (Nat.le_zero.1 (Nat.le_of_succ_le_succ h))
      have hall : ∀ e ∈ t, strcasecmp_eq e.1 n = false := by
        intro e he
        rcases Bool.eq_false_or_eq_true (strcasecmp_eq e.1 n) with hc | hc
        · have hmem : e ∈ t.filter (fun e => strcasecmp_eq e.1 n) :=
            List.mem_filter.2 ⟨he, hc⟩
          rw [h0] at hmem; cases hmem
        · exact hc
      simp [table_last, apr_table_get, hkn, table_last_eq_none_of_all t n hall]
    · simp only [List.filter, hkn] at h
      simp [table_last, apr_table_get, hkn, ih h, Option.or_none]

/-! ## Lemmas on `ap_cache_accept_headers` -/

theorem ap_cache_accept_headers_handle (srv : cache_server) (h : cache_handle_t)
    (r : request_rec) (preserve_orig : Bool) :
    (ap_cache_accept_headers srv h r preserve_orig).1 =
      { h with resp_hdrs := apr_table_unset (apr_table_unset (apr_table_unset
          h.resp_hdrs "Content-Type") "Last-Modified") "Set-Cookie" } := by
  unfold ap_cache_accept_headers
  cases hct : apr_table_get h.resp_hdrs "Content-Type" with
  | none =>
    simp only [apr_table_unset_of_get_none _ _ hct]
    cases hlm : apr_table_get h.resp_hdrs "Last-Modified" with
    | none => simp only [apr_table_unset_of_get_none _ _ hlm]
    | some v => simp only []
  | some v =>
    simp only []
    cases hlm : apr_table_get (apr_table_unset h.resp_hdrs "Content-Type") "Last-Modified" with
    | none => simp only [apr_table_unset_of_get_none _ _ hlm]
    | some v => simp only []

theorem ap_cache_accept_headers_headers_in (srv : cache_server) (h : cache_handle_t)
    (r : request_rec) (preserve_orig : Bool) :
    (ap_cache_accept_headers srv h r preserve_orig).2.headers_in = r.headers_in := by
  unfold ap_cache_accept_headers
  simp only [ap_set_content_type, ap_update_mtime, ap_set_last_modified]
  repeat (first | rfl | split)

theorem ap_cache_accept_headers_headers_out (srv : cache_server) (h : cache_handle_t)
    (r : request_rec) (preserve_orig : Bool) :
    (ap_cache_accept_headers srv h r preserve_orig).2.headers_out =
      if preserve_orig then
        apr_table_overlap (apr_table_unset (apr_table_unset (apr_table_unset
          h.resp_hdrs "Content-Type") "Last-Modified") "Set-Cookie") r.headers_out
      else
        apr_table_overlap r.headers_out (apr_table_unset (apr_table_unset (apr_table_unset
          h.resp_hdrs "Content-Type") "Last-Modified") "Set-Cookie") := by
  unfold ap_cache_accept_headers
  cases hct : apr_table_get h.resp_hdrs "Content-Type" with
  | none =>
    simp only [apr_table_unset_of_get_none _ _ hct]
    cases hlm : apr_table_get h.resp_hdrs "Last-Modified" with
    | none =>
      simp only [apr_table_unset_of_get_none _ _ hlm]
      cases preserve_orig <;> simp only [apr_table_copy] <;> split <;> simp
    | some v =>
      cases preserve_orig <;>
        simp only [apr_table_copy, ap_set_last_modified, ap_update_mtime] <;> split <;> simp
  | some v =>
    simp only []
    cases hlm : apr_table_get (apr_table_unset h.resp_hdrs "Content-Type") "Last-Modified" with
    | none =>
      simp only [apr_table_unset_of_get_none _ _ hlm]
      cases preserve_orig <;>
        simp only [apr_table_copy, ap_set_content_type] <;> split <;> simp
    | some v =>
      cases preserve_orig <;>
        simp only [apr_table_copy, ap_set_last_modified, ap_update_mtime,
          ap_set_content_type] <;> split <;> simp

theorem drop_seps_length_lt (c : Char) (cs : List Char) :
    (((c :: cs).dropWhile (fun x => !vary_sep x)).dropWhile vary_sep).length
      < (c :: cs).length := by
  have hle : ∀ (q : Char → Bool) (l : List Char), (l.dropWhile q).length ≤ l.length := by
    intro q l
    induction l with
    | nil => simp
    | cons a l ih =>
      simp only [List.dropWhile]
      split
      · simp only [List.length_cons]; omega
      · simp
  rcases Bool.eq_false_or_eq_true (vary_sep c) with hc | hc
  · have h1 : (c :: cs).dropWhile (fun x => !vary_sep x) = c :: cs := by
      simp [List.dropWhile, hc]
    have h2 : (c :: cs).dropWhile vary_sep = cs.dropWhile vary_sep := by
      simp [List.dropWhile, hc]
    rw [h1, h2]
    have := hle vary_sep cs
    simp only [List.length_cons]
    omega
  · have h1 : (c :: cs).dropWhile (fun x => !vary_sep x)
        = cs.dropWhile (fun x => !vary_sep x) := by
      simp [List.dropWhile, hc]
    rw [h1]
    have := hle vary_sep (cs.dropWhile (fun x => !vary_sep x))
    have := hle (fun x => !vary_sep x) cs
    simp only [List.length_cons]
    omega

/-! ## Lemmas on the Vary loop -/

theorem vary_header_match_iff (headers_in req_hdrs : apr_table_t) (name : String) :
    vary_header_match headers_in req_hdrs name = true ↔
      apr_table_get headers_in name = apr_table_get req_hdrs name := by
  unfold vary_header_match
  cases apr_table_get headers_in name <;> cases apr_table_get req_hdrs name <;> simp

theorem vary_loop_eq_all (headers_in req_hdrs : apr_table_t) (fuel : Nat) (v : List Char)
    (hfuel : v.length ≤ fuel) :
    vary_loop headers_in req_hdrs fuel v =
      (vary_names fuel v).all (vary_header_match headers_in req_hdrs) := by
  induction fuel generalizing v with
  | zero =>
    cases v with
    | nil => rfl
    | cons c cs => simp at hfuel
  | succ fuel ih =>
    cases v with
    | nil => rfl
    | cons c cs =>
      have hlen : (((c :: cs).dropWhile (fun x => !vary_sep x)).dropWhile vary_sep).length
          ≤ fuel := by
        have h1 := drop_seps_length_lt c cs
        simp only [List.length_cons] at hfuel h1
        omega
      simp only [vary_loop, vary_names, List.all_cons, ih _ hlen]
      cases vary_header_match headers_in req_hdrs
        (String.mk ((c :: cs).takeWhile (fun x => !vary_sep x))) <;> simp

theorem vary_names_fuel (fuel1 fuel2 : Nat) (v : List Char)
    (h1 : v.length ≤ fuel1) (h2 : v.length ≤ fuel2) :
    vary_names fuel1 v = vary_names fuel2 v := by
  induction fuel1 generalizing fuel2 v with
  | zero =>
    cases v with
    | nil => cases fuel2 <;> rfl
    | cons c cs => simp at h1
  | succ fuel1 ih =>
    cases v with
    | nil => cases fuel2 <;> rfl
    | cons c cs =>
      cases fuel2 with
      | zero => simp at h2
      | succ fuel2 =>
        have hlt := drop_seps_length_lt c cs
        simp only [List.length_cons] at h1 h2 hlt
        simp only [vary_names]
        rw [ih fuel2 _ (by omega) (by omega)]

theorem vary_loop_fuel (headers_in req_hdrs : apr_table_t) (fuel : Nat) (v : List Char)
    (hfuel : v.length ≤ fuel) :
    vary_loop headers_in req_hdrs fuel v = vary_loop headers_in req_hdrs v.length v := by
  rw [vary_loop_eq_all _ _ _ _ hfuel, vary_loop_eq_all _ _ _ _ (Nat.le_refl _),
    vary_names_fuel fuel v.length v hfuel (Nat.le_refl _)]

theorem splitOnP_eq_takeWhile_cons (q : Char → Bool) (l : List Char) :
    l.splitOnP q =
      l.takeWhile (fun x => !q x) ::
        (match l.dropWhile (fun x => !q x) with
         | [] => []
         | _ :: rest => rest.splitOnP q) := by
  induction l with
  | nil => rfl
  | cons x xs ih =>
    rcases Bool.eq_false_or_eq_true (q x) with hx | hx
    · simp [List.splitOnP_cons, hx, List.takeWhile, List.dropWhile]
    · rw [List.splitOnP_cons, ih]
      simp [hx, List.takeWhile, List.dropWhile]

theorem dropWhile_head_false (q : Char → Bool) (l : List Char) :
    ∀ s rest, l.dropWhile q = s :: rest → q s = false := by
  induction l with
  | nil => intro s rest h; simp at h
  | cons x xs ih =>
    intro s rest h
    rcases Bool.eq_false_or_eq_true (q x) with hx | hx
    · simp only [List.dropWhile, hx] at h
      exact ih s rest h
    · simp only [List.dropWhile, hx] at h
      cases h
      exact hx

theorem split_pieces_nil : split_pieces [] = [] := by
  simp [split_pieces]

theorem split_pieces_cons_sep (c : Char) (cs : List Char) (hc : vary_sep c = true) :
    split_pieces (c :: cs) = split_pieces cs := by
  simp [split_pieces, List.splitOnP_cons, hc, List.filter]

theorem split_pieces_dropWhile (l : List Char) :
    split_pieces (l.dropWhile vary_sep) = split_pieces l := by
  induction l with
  | nil => rfl
  | cons c cs ih =>
    rcases Bool.eq_false_or_eq_true (vary_sep c) with hc | hc
    · simp only [List.dropWhile, hc, ih, split_pieces_cons_sep c cs hc]
    · simp only [List.dropWhile, hc]

theorem split_pieces_cons_name (c : Char) (cs : List Char) (hc : vary_sep c = false) :
    split_pieces (c :: cs) =
      (c :: cs).takeWhile (fun x => !vary_sep x) ::
        split_pieces (((c :: cs).dropWhile (fun x => !vary_sep x)).dropWhile vary_sep) := by
  have hsplit := splitOnP_eq_takeWhile_cons vary_sep (c :: cs)
  have htake : (c :: cs).takeWhile (fun x => !vary_sep x)
      = c :: cs.takeWhile (fun x => !vary_sep x) := by
    simp [List.takeWhile, hc]
  unfold split_pieces
  rw [hsplit]
  cases hdrop : (c :: cs).dropWhile (fun x => !vary_sep x) with
  | nil =>
    simp [htake, List.filter]
  | cons s rest =>
    have hs : vary_sep s = true := by
      have := dropWhile_head_false (fun x => !vary_sep x) (c :: cs) s rest hdrop
      simpa using this
    have hrest := split_pieces_dropWhile rest
    unfold split_pieces at hrest
    simp only [htake, List.filter, List.isEmpty_cons, Bool.not_false, List.dropWhile, hs, hrest]

theorem vary_names_of_name_start (fuel : Nat) (v : List Char) (hfuel : v.length ≤ fuel)
    (hstart : ∀ c cs, v = c :: cs → vary_sep c = false) :
    vary_names fuel v = (split_pieces v).map String.mk := by
  induction fuel generalizing v with
  | zero =>
    cases v with
    | nil => simp [vary_names, split_pieces_nil]
    | cons c cs => simp at hfuel
  | succ fuel ih =>
    cases v with
    | nil => simp [vary_names, split_pieces_nil]
    | cons c cs =>
      have hc := hstart c cs rfl
      have hlt := drop_seps_length_lt c cs
      simp only [List.length_cons] at hfuel hlt
      rw [split_pieces_cons_name c cs hc]
      simp only [vary_names, List.map_cons]
      rw [ih _ (by omega)
        (fun s rest h => dropWhile_head_false vary_sep _ s rest h)]

theorem vary_names_of_sep_start (fuel : Nat) (c : Char) (cs : List Char)
    (hfuel : (c :: cs).length ≤ fuel) (hc : vary_sep c = true) :
    vary_names fuel (c :: cs) = "" :: (split_pieces (c :: cs)).map String.mk := by
  cases fuel with
  | zero => simp at hfuel
  | succ fuel =>
    have hlt := drop_seps_length_lt c cs
    simp only [List.length_cons] at hfuel hlt
    have h1 : (c :: cs).takeWhile (fun x => !vary_sep x) = [] := by
      simp [List.takeWhile, hc]
    have h2 : (c :: cs).dropWhile (fun x => !vary_sep x) = c :: cs := by
      simp [List.dropWhile, hc]
    simp only [vary_names, h1, h2]
    rw [vary_names_of_name_start fuel _ (by rw [h2] at hlt; omega)
      (fun s rest h => dropWhile_head_false vary_sep _ s rest h),
      split_pieces_dropWhile]

/-- The Vary check of `cache_select` against the reading of the specification: an
absent Vary header passes; a Vary value passes exactly when the request and the stored
request headers agree (both absent, or both present and equal) on every name of the
split value and, if the value begins with a comma or whitespace, on the empty name
too. -/
theorem vary_check_iff (headers_in req_hdrs : apr_table_t) (v : String) :
    vary_check headers_in req_hdrs none = true ∧
    (vary_check headers_in req_hdrs (some v) = true ↔
      (∀ name ∈ spec_vary_names v,
          apr_table_get headers_in name = apr_table_get req_hdrs name) ∧
        ((∃ c cs, v.data = c :: cs ∧ vary_sep c = true) →
          apr_table_get headers_in "" = apr_table_get req_hdrs "")) := by
  refine ⟨rfl, ?_⟩
  simp only [vary_check, spec_vary_names]
  rw [vary_loop_eq_all _ _ _ _ (Nat.le_refl _)]
  cases hv : v.data with
  | nil => simp [vary_names, split_pieces_nil]
  | cons c cs =>
    rcases Bool.eq_false_or_eq_true (vary_sep c) with hc | hc
    · rw [vary_names_of_sep_start _ c cs (Nat.le_refl _) hc]
      simp only [List.all_cons, Bool.and_eq_true, List.all_eq_true, vary_header_match_iff]
      constructor
      · rintro ⟨h0, hall⟩
        exact ⟨hall, fun _ => h0⟩
      · rintro ⟨hall, h0⟩
        exact ⟨h0 ⟨c, cs, rfl, hc⟩, hall⟩
    · rw [vary_names_of_name_start _ (c :: cs) (Nat.le_refl _)
        (fun c2 cs2 h => by cases h; exact hc)]
      simp only [List.all_eq_true, vary_header_match_iff]
      constructor
      · intro hall
        refine ⟨hall, ?_⟩
        rintro ⟨c2, cs2, h, hc2⟩
        cases h
        rw [hc] at hc2
        cases hc2
      · rintro ⟨hall, -⟩
        exact hall

/-! ## Lemmas on the stale arm of `cache_select` -/

theorem cache_select_opened_stale (srv : cache_server) (r : request_rec)
    (cache : cache_request_rec) (node : cache_provider_list) (h1 h2 : cache_handle_t)
    (hrecall : node.provider.recall_headers h1 r = (APR_SUCCESS, h2))
    (hvary : vary_check r.headers_in h2.req_hdrs (apr_table_get h2.resp_hdrs "Vary") = true)
    (hstale : srv.ap_cache_check_freshness h2 r = false) :
    cache_select_opened srv r cache node h1 =
      { rv := DECLINED
        r := { r with headers_in :=
          match apr_table_get h2.resp_hdrs "Last-Modified" with
          | some l =>
            apr_table_set
              (match apr_table_get h2.resp_hdrs "ETag" with
               | some e =>
                 apr_table_set (apr_table_unset (apr_table_unset (apr_table_unset
                   (apr_table_unset (apr_table_unset r.headers_in "If-Match")
                     "If-Modified-Since") "If-None-Match") "If-Range")
                   "If-Unmodified-Since") "If-None-Match" e
               | none =>
                 apr_table_unset (apr_table_unset (apr_table_unset
                   (apr_table_unset (apr_table_unset r.headers_in "If-Match")
                     "If-Modified-Since") "If-None-Match") "If-Range")
                   "If-Unmodified-Since")
              "If-Modified-Since" l
          | none =>
            match apr_table_get h2.resp_hdrs "ETag" with
            | some e =>
              apr_table_set (apr_table_unset (apr_table_unset (apr_table_unset
                (apr_table_unset (apr_table_unset r.headers_in "If-Match")
                  "If-Modified-Since") "If-None-Match") "If-Range")
                "If-Unmodified-Since") "If-None-Match" e
            | none =>
              apr_table_unset (apr_table_unset (apr_table_unset
                (apr_table_unset (apr_table_unset r.headers_in "If-Match")
                  "If-Modified-Since") "If-None-Match") "If-Range")
                "If-Unmodified-Since" }
        cache := { cache with
          provider := some node.provider
          provider_name := some node.provider_name
          stale_headers := some r.headers_in
          stale_handle :=
            if (apr_table_get h2.resp_hdrs "ETag").isSome
                || (apr_table_get h2.resp_hdrs "Last-Modified").isSome
            then some h2 else cache.stale_handle }
        calls := [node] } := by
  cases hetag : apr_table_get h2.resp_hdrs "ETag" <;>
    cases hlm : apr_table_get h2.resp_hdrs "Last-Modified" <;>
    simp [cache_select_opened, hrecall, hvary, hstale, hetag, hlm, apr_table_copy]

/-! ## Vary validation -/

/-- C1 fails on the code where the Vary value begins with a separator. The cached
response has Vary ",Accept-Language" and the stored request has Accept-Language "en";
the request has Accept-Language "en" and a header line with an empty field name. The
only name of the split Vary value is Accept-Language and both sides agree on it, so by
C1 the selection goes on to the freshness check; the loop of `cache_select` isolates the
empty name first, finds it in the request only, and returns DECLINED with nothing
bound. -/
theorem cache_select_vary_leading_separator :
    spec_vary_names ",Accept-Language" = ["Accept-Language"] ∧
    (∀ name ∈ spec_vary_names ",Accept-Language",
      apr_table_get empty_name_request.headers_in name
        = apr_table_get [("Accept-Language", "en")] name) ∧
    vary_names 16 (",Accept-Language" : String).data = ["", "Accept-Language"] ∧
    apr_table_get empty_name_request.headers_in "" = some "x" ∧
    apr_table_get [("Accept-Language", "en")] "" = none ∧
    vary_check empty_name_request.headers_in [("Accept-Language", "en")]
      (some ",Accept-Language") = false ∧
    (cache_select (example_server true) empty_name_request
      { providers := comma_vary_chain } {}).rv = DECLINED ∧
    (cache_select (example_server true) empty_name_request
      { providers := comma_vary_chain } {}).cache.handle = none ∧
    (cache_select (example_server true) empty_name_request
      { providers := comma_vary_chain } {}).cache.provider_name = none := by
  refine ⟨by decide, by decide, by decide, by decide, by decide, by decide, by decide,
    by decide, by decide⟩

/-! ## Provider chain: creation -/

/-- C2: when `cache_generate_key` succeeds, every provider before a node declines
`create_entity` and that node returns OK, `cache_create_entity` returns OK, binds the
handle to the new handle and provider and provider_name to that node, and has called
exactly the providers up to and including that node, none after it. -/
theorem cache_create_entity_first_success (srv : cache_server) (r : request_rec)
    (cache : cache_request_rec) (size : Int) (key : String)
    (pre post : List cache_provider_list) (node : cache_provider_list)
    (hi hnew : cache_handle_t)
    (hkey : srv.cache_generate_key r = (APR_SUCCESS, key))
    (hchain : cache.providers = pre ++ node :: post)
    (hpre : chain_declines (create_call r key size) pre {} = some hi)
    (hok : node.provider.create_entity hi r key size = (OK, hnew)) :
    (cache_create_entity srv r cache size).rv = OK ∧
      (cache_create_entity srv r cache size).cache =
        { cache with handle := some hnew, provider := some node.provider,
                     provider_name := some node.provider_name } ∧
      (cache_create_entity srv r cache size).calls = pre ++ [node] := by
  obtain ⟨h1, h2, h3⟩ :=
    create_loop_declined_prefix r key size cache pre (node :: post) {} hi hpre
  rw [cache_create_entity_eq_loop srv r cache size key _ hkey hchain, h1, h2, h3]
  simp [cache_create_entity_loop, hok]

/-- C2, on the chain decline, success, failure: the result is OK bound to the second
provider "disk" and the third provider is not called. -/
theorem cache_create_entity_first_success_witness :
    ((example_server true).cache_generate_key { uri := "/a" } = (APR_SUCCESS, "/a") ∧
      chain_declines (create_call { uri := "/a" } "/a" (-1)) (example_chain.take 1) {}
        = some {}) ∧
    (cache_create_entity (example_server true) { uri := "/a" }
        { providers := example_chain } (-1)).rv = OK ∧
    ((cache_create_entity (example_server true) { uri := "/a" }
        { providers := example_chain } (-1)).cache.handle
        = some { cache_obj := some "/a" } ∧
      (cache_create_entity (example_server true) { uri := "/a" }
        { providers := example_chain } (-1)).cache.provider_name = some "disk") ∧
    (cache_create_entity (example_server true) { uri := "/a" }
        { providers := example_chain } (-1)).calls.map (fun n => n.provider_name)
        = ["mem", "disk"] := by
  have h := cache_create_entity_first_success (example_server true) { uri := "/a" }
    { providers := example_chain } (-1) "/a" (example_chain.take 1) (example_chain.drop 2)
    { provider_name := "disk",
      provider := entity_provider [("Accept-Language", "en")]
        [("Vary", "Accept-Language"), ("ETag", "\"abc\""), ("Content-Type", "text/html")] }
    {} { cache_obj := some "/a" } rfl rfl rfl rfl
  refine ⟨⟨rfl, rfl⟩, h.1, ?_, ?_⟩
  · rw [h.2.1]; exact ⟨rfl, rfl⟩
  · rw [h.2.2]; rfl

/-! ## Provider chain: errors and exhaustion -/

/-- C3: when `cache_generate_key` succeeds and the first provider that does not decline
returns a status rv other than OK and DECLINED, `cache_create_entity` (on create_entity)
and `cache_select` (on open_entity) return rv, have called exactly the providers up to
and including that one, and leave the request state (handle, stale handle, provider,
provider_name) as it was; `cache_select` leaves the request as it was too. -/
theorem provider_error_fail_fast (srv : cache_server) (r : request_rec)
    (cache : cache_request_rec) (key : String)
    (pre post : List cache_provider_list) (node : cache_provider_list) (rv : Int)
    (hkey : srv.cache_generate_key r = (APR_SUCCESS, key))
    (hchain : cache.providers = pre ++ node :: post)
    (hok : rv ≠ OK) (hdecl : rv ≠ DECLINED) :
    (∀ (size : Int) (hi : cache_handle_t),
        chain_declines (create_call r key size) pre {} = some hi →
        (node.provider.create_entity hi r key size).1 = rv →
        (cache_create_entity srv r cache size).rv = rv ∧
          (cache_create_entity srv r cache size).calls = pre ++ [node] ∧
          (cache_create_entity srv r cache size).cache = cache) ∧
    (∀ (h0 hi : cache_handle_t),
        chain_declines (open_call r key) pre h0 = some hi →
        (node.provider.open_entity hi r key).1 = rv →
        (cache_select srv r cache h0).rv = rv ∧
          (cache_select srv r cache h0).calls = pre ++ [node] ∧
          (cache_select srv r cache h0).cache = cache ∧
          (cache_select srv r cache h0).r = r) := by
  constructor
  · intro size hi hpre hrv
    obtain ⟨h1, h2, h3⟩ :=
      create_loop_declined_prefix r key size cache pre (node :: post) {} hi hpre
    rw [cache_create_entity_eq_loop srv r cache size key _ hkey hchain, h1, h2, h3]
    simp [cache_create_entity_loop, hrv, hok, hdecl]
  · intro h0 hi hpre hrv
    obtain ⟨h1, h2, h3, h4⟩ :=
      select_loop_declined_prefix srv r key cache pre (node :: post) h0 hi hpre
    rw [cache_select_eq_loop srv r cache h0 key _ hkey hchain, h1, h2, h3, h4]
    simp [cache_select_loop, hrv, hok, hdecl]

/-- C3, on the chain decline, failure 500, success: both operations return 500, call
"mem" and "disk" only, and keep the state. -/
theorem provider_error_fail_fast_witness :
    ((example_server true).cache_generate_key { uri := "/a" } = (APR_SUCCESS, "/a") ∧
      (500 : Int) ≠ OK ∧ (500 : Int) ≠ DECLINED) ∧
    ((cache_create_entity (example_server true) { uri := "/a" }
        { providers := failing_chain } (-1)).rv = 500 ∧
      (cache_create_entity (example_server true) { uri := "/a" }
        { providers := failing_chain } (-1)).calls = failing_chain.take 2 ∧
      (cache_create_entity (example_server true) { uri := "/a" }
        { providers := failing_chain } (-1)).cache = { providers := failing_chain }) ∧
    ((cache_select (example_server true) { uri := "/a" }
        { providers := failing_chain } {}).rv = 500 ∧
      (cache_select (example_server true) { uri := "/a" }
        { providers := failing_chain } {}).calls = failing_chain.take 2 ∧
      (cache_select (example_server true) { uri := "/a" }
        { providers := failing_chain } {}).cache = { providers := failing_chain } ∧
      (cache_select (example_server true) { uri := "/a" }
        { providers := failing_chain } {}).r = { uri := "/a" }) := by
  have h := provider_error_fail_fast (example_server true) { uri := "/a" }
    { providers := failing_chain } "/a" (failing_chain.take 1) (failing_chain.drop 2)
    { provider_name := "disk", provider := error_provider } 500 rfl rfl
    (by decide) (by decide)
  exact ⟨⟨rfl, by decide, by decide⟩, h.1 (-1) {} rfl rfl, h.2 {} {} rfl rfl⟩

/-- C4, as amended: when `cache_generate_key` succeeds and every provider of the chain
(which may be empty) declines, `cache_create_entity` and `cache_select` return DECLINED, have called
every provider once in chain order, and leave the request state (handle, stale handle,
provider, provider_name) as it was; `cache_select` leaves the request as it was too. -/
theorem chain_exhausted_declined (srv : cache_server) (r : request_rec)
    (cache : cache_request_rec) (key : String)
    (hkey : srv.cache_generate_key r = (APR_SUCCESS, key)) :
    (∀ (size : Int) (hfin : cache_handle_t),
        chain_declines (create_call r key size) cache.providers {} = some hfin →
        (cache_create_entity srv r cache size).rv = DECLINED ∧
          (cache_create_entity srv r cache size).calls = cache.providers ∧
          (cache_create_entity srv r cache size).cache = cache) ∧
    (∀ (h0 hfin : cache_handle_t),
        chain_declines (open_call r key) cache.providers h0 = some hfin →
        (cache_select srv r cache h0).rv = DECLINED ∧
          (cache_select srv r cache h0).calls = cache.providers ∧
          (cache_select srv r cache h0).cache = cache ∧
          (cache_select srv r cache h0).r = r) := by
  constructor
  · intro size hfin hpre
    obtain ⟨h1, h2, h3⟩ :=
      create_loop_declined_prefix r key size cache cache.providers [] {} hfin hpre
    rw [cache_create_entity_eq_loop srv r cache size key (cache.providers ++ []) hkey
      (List.append_nil _).symm, h1, h2, h3]
    simp [cache_create_entity_loop]
  · intro h0 hfin hpre
    obtain ⟨h1, h2, h3, h4⟩ :=
      select_loop_declined_prefix srv r key cache cache.providers [] h0 hfin hpre
    rw [cache_select_eq_loop srv r cache h0 key (cache.providers ++ []) hkey
      (List.append_nil _).symm, h1, h2, h3, h4]
    simp [cache_select_loop]

/-- C4, as amended, on a chain of two declining providers and on the empty chain. -/
theorem chain_exhausted_declined_witness :
    (example_server true).cache_generate_key { uri := "/a" } = (APR_SUCCESS, "/a") ∧
    ((cache_create_entity (example_server true) { uri := "/a" }
        { providers := declining_chain } 10).rv = DECLINED ∧
      (cache_create_entity (example_server true) { uri := "/a" }
        { providers := declining_chain } 10).calls = declining_chain ∧
      (cache_create_entity (example_server true) { uri := "/a" }
        { providers := declining_chain } 10).cache = { providers := declining_chain }) ∧
    ((cache_select (example_server true) { uri := "/a" }
        { providers := declining_chain } {}).rv = DECLINED ∧
      (cache_select (example_server true) { uri := "/a" }
        { providers := declining_chain } {}).calls = declining_chain ∧
      (cache_select (example_server true) { uri := "/a" }
        { providers := declining_chain } {}).cache = { providers := declining_chain } ∧
      (cache_select (example_server true) { uri := "/a" }
        { providers := declining_chain } {}).r = { uri := "/a" }) ∧
    ((cache_select (example_server true) { uri := "/a" } { providers := [] } {}).rv
        = DECLINED ∧
      (cache_select (example_server true) { uri := "/a" } { providers := [] } {}).calls
        = [] ∧
      (cache_select (example_server true) { uri := "/a" } { providers := [] } {}).cache
        = { providers := [] } ∧
      (cache_select (example_server true) { uri := "/a" } { providers := [] } {}).r
        = { uri := "/a" }) := by
  have h := chain_exhausted_declined (example_server true) { uri := "/a" }
    { providers := declining_chain } "/a" rfl
  have h2 := chain_exhausted_declined (example_server true) { uri := "/a" }
    { providers := [] } "/a" rfl
  exact ⟨rfl, h.1 10 {} rfl, h.2 {} {} rfl, h2.2 {} {} rfl⟩

/-- C4 as stated fails: on the empty chain, where every provider declines vacuously,
and on a chain of declining providers, a key generator that fails with status 70014
makes `cache_create_entity` and `cache_select` return 70014, not DECLINED, and no
provider is called (lines 78-81 and 181-184). -/
theorem chain_exhausted_counterexample :
    chain_declines (create_call { uri := "/a" } "" 10) [] {} = some {} ∧
    chain_declines (open_call { uri := "/a" } "") [] {} = some {} ∧
    (cache_create_entity keyless_server { uri := "/a" } { providers := [] } 10).rv = 70014 ∧
    (cache_create_entity keyless_server { uri := "/a" } { providers := [] } 10).rv
      ≠ DECLINED ∧
    (cache_select keyless_server { uri := "/a" } { providers := [] } {}).rv = 70014 ∧
    (cache_select keyless_server { uri := "/a" } { providers := [] } {}).rv ≠ DECLINED ∧
    chain_declines (open_call { uri := "/a" } "") declining_chain {} = some {} ∧
    (cache_select keyless_server { uri := "/a" } { providers := declining_chain } {}).rv
      ≠ DECLINED ∧
    (cache_select keyless_server { uri := "/a" } { providers := declining_chain } {}).calls
      = [] ∧
    (cache_create_entity keyless_server { uri := "/a" }
      { providers := declining_chain } 10).calls = [] := by
  refine ⟨rfl, rfl, by decide, by decide, by decide, by decide, rfl, by decide, rfl, rfl⟩

/-! ## Selection: unusable, fresh and stale entities -/

/-- C5: when the first provider whose `open_entity` succeeds fails `recall_headers`, or
recalls an entity that fails the Vary check, `cache_select` returns DECLINED, has
called no provider after that one, and leaves the request state (handle, stale handle,
provider, provider_name, stale_headers) and the request (its inbound headers
included) as they were. -/
theorem cache_select_unusable_not_retried (srv : cache_server) (r : request_rec)
    (cache : cache_request_rec) (h0 : cache_handle_t) (key : String)
    (pre post : List cache_provider_list) (node : cache_provider_list)
    (hi h1 : cache_handle_t)
    (hkey : srv.cache_generate_key r = (APR_SUCCESS, key))
    (hchain : cache.providers = pre ++ node :: post)
    (hpre : chain_declines (open_call r key) pre h0 = some hi)
    (hopen : node.provider.open_entity hi r key = (OK, h1))
    (hbad : (node.provider.recall_headers h1 r).1 ≠ APR_SUCCESS ∨
      vary_check r.headers_in (node.provider.recall_headers h1 r).2.req_hdrs
        (apr_table_get (node.provider.recall_headers h1 r).2.resp_hdrs "Vary") = false) :
    (cache_select srv r cache h0).rv = DECLINED ∧
      (cache_select srv r cache h0).calls = pre ++ [node] ∧
      (cache_select srv r cache h0).cache = cache ∧
      (cache_select srv r cache h0).r = r := by
  obtain ⟨e1, e2, e3, e4⟩ :=
    cache_select_first_open srv r cache h0 key pre post node hi h1 hkey hchain hpre hopen
  rw [e1, e2, e3, e4]
  by_cases hrc : (node.provider.recall_headers h1 r).1 = APR_SUCCESS
  · have hv := hbad.resolve_left (fun h => h hrc)
    simp [cache_select_opened, hrc, hv]
  · simp [cache_select_opened, hrc]

/-- C5, on a chain whose second provider holds the English variant and whose third
holds the French one, for a French request (Vary mismatch), and on a chain whose second
provider cannot recall its headers: DECLINED, the third provider is not called. -/
theorem cache_select_unusable_not_retried_witness :
    (vary_check french_request.headers_in [("Accept-Language", "en")]
        (apr_table_get [("Vary", "Accept-Language")] "Vary") = false ∧
      (500 : Int) ≠ APR_SUCCESS) ∧
    ((cache_select (example_server true) french_request { providers := variant_chain } {}).rv
        = DECLINED ∧
      (cache_select (example_server true) french_request { providers := variant_chain } {}).calls
        = variant_chain.take 2 ∧
      (cache_select (example_server true) french_request { providers := variant_chain } {}).cache
        = { providers := variant_chain } ∧
      (cache_select (example_server true) french_request { providers := variant_chain } {}).r
        = french_request) ∧
    ((cache_select (example_server true) english_request { providers := broken_chain } {}).rv
        = DECLINED ∧
      (cache_select (example_server true) english_request { providers := broken_chain } {}).calls
        = broken_chain.take 2 ∧
      (cache_select (example_server true) english_request { providers := broken_chain } {}).cache
        = { providers := broken_chain } ∧
      (cache_select (example_server true) english_request { providers := broken_chain } {}).r
        = english_request) :=
  ⟨⟨by decide, by decide⟩,
    cache_select_unusable_not_retried (example_server true) french_request
      { providers := variant_chain } {} "/a" (variant_chain.take 1) (variant_chain.drop 2)
      { provider_name := "disk",
        provider := entity_provider [("Accept-Language", "en")] [("Vary", "Accept-Language")] }
      {} { cache_obj := some "/a" } rfl rfl rfl rfl (Or.inr (by decide)),
    cache_select_unusable_not_retried (example_server true) english_request
      { providers := broken_chain } {} "/a" (broken_chain.take 1) (broken_chain.drop 2)
      { provider_name := "disk", provider := broken_provider }
      {} { cache_obj := some "/a" } rfl rfl rfl rfl (Or.inl (by decide))⟩

/-- C6: when the first provider that does not decline opens an entity whose header
recall succeeds, whose Vary check passes and which the freshness evaluator reports
fresh, `cache_select` returns OK, binds provider and provider_name to that provider,
sets the active handle to the opened handle as `ap_cache_accept_headers` leaves it (the
same object and stored request headers, the response headers without Content-Type,
Last-Modified and Set-Cookie), leaves the stale handle and the inbound headers as they
were, and leaves the request as `ap_cache_accept_headers(h, r, 0)` produces it. -/
theorem cache_select_fresh_hit (srv : cache_server) (r : request_rec)
    (cache : cache_request_rec) (h0 : cache_handle_t) (key : String)
    (pre post : List cache_provider_list) (node : cache_provider_list)
    (hi h1 h2 : cache_handle_t)
    (hkey : srv.cache_generate_key r = (APR_SUCCESS, key))
    (hchain : cache.providers = pre ++ node :: post)
    (hpre : chain_declines (open_call r key) pre h0 = some hi)
    (hopen : node.provider.open_entity hi r key = (OK, h1))
    (hrecall : node.provider.recall_headers h1 r = (APR_SUCCESS, h2))
    (hvary : vary_check r.headers_in h2.req_hdrs (apr_table_get h2.resp_hdrs "Vary") = true)
    (hfresh : srv.ap_cache_check_freshness h2 r = true) :
    (cache_select srv r cache h0).rv = OK ∧
      (cache_select srv r cache h0).calls = pre ++ [node] ∧
      (cache_select srv r cache h0).cache =
        { cache with handle := some (ap_cache_accept_headers srv h2 r false).1,
                     provider := some node.provider,
                     provider_name := some node.provider_name } ∧
      (ap_cache_accept_headers srv h2 r false).1 =
        { h2 with resp_hdrs := apr_table_unset (apr_table_unset (apr_table_unset
            h2.resp_hdrs "Content-Type") "Last-Modified") "Set-Cookie" } ∧
      (cache_select srv r cache h0).cache.stale_handle = cache.stale_handle ∧
      (cache_select srv r cache h0).r = (ap_cache_accept_headers srv h2 r false).2 ∧
      (cache_select srv r cache h0).r.headers_in = r.headers_in := by
  obtain ⟨e1, e2, e3, e4⟩ :=
    cache_select_first_open srv r cache h0 key pre post node hi h1 hkey hchain hpre hopen
  rw [e1, e2, e3, e4]
  have hres : cache_select_opened srv r cache node h1 =
      { rv := OK, r := (ap_cache_accept_headers srv h2 r false).2,
        cache := { cache with handle := some (ap_cache_accept_headers srv h2 r false).1,
                              provider := some node.provider,
                              provider_name := some node.provider_name },
        calls := [node] } := by
    simp [cache_select_opened, hrecall, hvary, hfresh]
  rw [hres]
  refine ⟨rfl, rfl, rfl, ap_cache_accept_headers_handle srv h2 r false, rfl, rfl,
    ap_cache_accept_headers_headers_in srv h2 r false⟩

/-- C6, on the example chain for an English request and a fresh verdict: OK, bound to
"disk", the third provider not called, Content-Type moved from the handle's response
headers to the content-type attribute. -/
theorem cache_select_fresh_hit_witness :
    (vary_check english_request.headers_in [("Accept-Language", "en")]
        (some "Accept-Language") = true) ∧
    (cache_select (example_server true) english_request { providers := example_chain } {}).rv
      = OK ∧
    (cache_select (example_server true) english_request
        { providers := example_chain } {}).calls.map (fun n => n.provider_name)
      = ["mem", "disk"] ∧
    (cache_select (example_server true) english_request
        { providers := example_chain } {}).cache.provider_name = some "disk" ∧
    (cache_select (example_server true) english_request
        { providers := example_chain } {}).cache.handle
      = some { cache_obj := some "/a", req_hdrs := [("Accept-Language", "en")],
               resp_hdrs := [("Vary", "Accept-Language"), ("ETag", "\"abc\"")] } ∧
    (cache_select (example_server true) english_request
        { providers := example_chain } {}).r
      = { english_request with
          content_type := some "text/html",
          headers_out := [("Vary", "Accept-Language"), ("ETag", "\"abc\"")] } := by
  have h := cache_select_fresh_hit (example_server true) english_request
    { providers := example_chain } {} "/a" (example_chain.take 1) (example_chain.drop 2)
    { provider_name := "disk",
      provider := entity_provider [("Accept-Language", "en")]
        [("Vary", "Accept-Language"), ("ETag", "\"abc\""), ("Content-Type", "text/html")] }
    {} { cache_obj := some "/a" }
    { cache_obj := some "/a", req_hdrs := [("Accept-Language", "en")],
      resp_hdrs := [("Vary", "Accept-Language"), ("ETag", "\"abc\""),
        ("Content-Type", "text/html")] }
    rfl rfl rfl rfl rfl (by decide) rfl
  refine ⟨by decide, h.1, ?_, ?_, ?_, ?_⟩
  · rw [h.2.1]; rfl
  · rw [h.2.2.1]
  · rw [h.2.2.1]; simp only []; decide
  · rw [h.2.2.2.2.2.1]; decide

/-- C8: when the first provider that does not decline opens an entity whose header
recall succeeds, whose Vary check passes and which is not fresh, `cache_select` leaves
the active handle as it was; it sets the stale handle to the opened handle when the
cached response headers hold an ETag or a Last-Modified; when they hold neither, the
stale handle is left as it was and the request carries none of the five conditional
headers. -/
theorem cache_select_stale_handle (srv : cache_server) (r : request_rec)
    (cache : cache_request_rec) (h0 : cache_handle_t) (key : String)
    (pre post : List cache_provider_list) (node : cache_provider_list)
    (hi h1 h2 : cache_handle_t)
    (hkey : srv.cache_generate_key r = (APR_SUCCESS, key))
    (hchain : cache.providers = pre ++ node :: post)
    (hpre : chain_declines (open_call r key) pre h0 = some hi)
    (hopen : node.provider.open_entity hi r key = (OK, h1))
    (hrecall : node.provider.recall_headers h1 r = (APR_SUCCESS, h2))
    (hvary : vary_check r.headers_in h2.req_hdrs (apr_table_get h2.resp_hdrs "Vary") = true)
    (hstale : srv.ap_cache_check_freshness h2 r = false) :
    (cache_select srv r cache h0).cache.handle = cache.handle ∧
      (((apr_table_get h2.resp_hdrs "ETag").isSome ∨
          (apr_table_get h2.resp_hdrs "Last-Modified").isSome) →
        (cache_select srv r cache h0).cache.stale_handle = some h2) ∧
      (apr_table_get h2.resp_hdrs "ETag" = none →
        apr_table_get h2.resp_hdrs "Last-Modified" = none →
        (cache_select srv r cache h0).cache.stale_handle = cache.stale_handle ∧
          ∀ c ∈ conditional_headers,
            apr_table_get (cache_select srv r cache h0).r.headers_in c = none) := by
  obtain ⟨-, e2, e3, -⟩ :=
    cache_select_first_open srv r cache h0 key pre post node hi h1 hkey hchain hpre hopen
  rw [e2, e3, cache_select_opened_stale srv r cache node h1 h2 hrecall hvary hstale]
  refine ⟨rfl, ?_, ?_⟩
  · intro hv
    have : ((apr_table_get h2.resp_hdrs "ETag").isSome
        || (apr_table_get h2.resp_hdrs "Last-Modified").isSome) = true := by
      simpa using hv
    simp only [this, if_true]
  · intro hetag hlm
    simp only [hetag, hlm]
    refine ⟨by simp, ?_⟩
    intro c hc
    simp only [conditional_headers, List.mem_cons, List.mem_singleton, List.mem_nil_iff,
      or_false] at hc
    rcases hc with rfl | rfl | rfl | rfl | rfl <;>
      simp [apr_table_get_unset, strcasecmp_eq_refl]

/-- C8, on a stale entity with an ETag (the stale handle becomes the opened handle)
and on a stale entity with no validator (no stale handle, no conditional header). -/
theorem cache_select_stale_handle_witness :
    ((cache_select (example_server false) english_request
        { providers := example_chain } {}).cache.handle = none ∧
      (cache_select (example_server false) english_request
        { providers := example_chain } {}).cache.stale_handle
        = some { cache_obj := some "/a", req_hdrs := [("Accept-Language", "en")],
                 resp_hdrs := [("Vary", "Accept-Language"), ("ETag", "\"abc\""),
                   ("Content-Type", "text/html")] }) ∧
    ((cache_select (example_server false) english_request
        { providers := variant_chain } {}).cache.stale_handle = none ∧
      (cache_select (example_server false) english_request
        { providers := variant_chain } {}).r.headers_in
        = [("Accept-Language", "en"), ("Host", "example.org")]) := by
  have h := cache_select_stale_handle (example_server false) english_request
    { providers := example_chain } {} "/a" (example_chain.take 1) (example_chain.drop 2)
    { provider_name := "disk",
      provider := entity_provider [("Accept-Language", "en")]
        [("Vary", "Accept-Language"), ("ETag", "\"abc\""), ("Content-Type", "text/html")] }
    {} { cache_obj := some "/a" }
    { cache_obj := some "/a", req_hdrs := [("Accept-Language", "en")],
      resp_hdrs := [("Vary", "Accept-Language"), ("ETag", "\"abc\""),
        ("Content-Type", "text/html")] }
    rfl rfl rfl rfl rfl (by decide) rfl
  have h2 := cache_select_stale_handle (example_server false) english_request
    { providers := variant_chain } {} "/a" (variant_chain.take 1) (variant_chain.drop 2)
    { provider_name := "disk",
      provider := entity_provider [("Accept-Language", "en")] [("Vary", "Accept-Language")] }
    {} { cache_obj := some "/a" }
    { cache_obj := some "/a", req_hdrs := [("Accept-Language", "en")],
      resp_hdrs := [("Vary", "Accept-Language")] }
    rfl rfl rfl rfl rfl (by decide) rfl
  exact ⟨⟨h.1, h.2.1 (Or.inl rfl)⟩, (h2.2.2 (by decide) (by decide)).1, by decide⟩

/-! ## Header reconciliation -/

/-- C10, as amended: for every header name other than Content-Type, Last-Modified and
Set-Cookie, the outgoing header set left by `ap_cache_accept_headers` holds the name at
most once, and its value there is the value of the last entry of that name in the
cached response headers, else in the pre-existing outgoing headers, when preserve_orig
is false, and the other way round when preserve_orig is true. When each of the two
tables holds the name at most once, this is the value `apr_table_get` reads from the
cached headers, else from the outgoing ones (false), or the other way round (true). -/
theorem accept_headers_merge_precedence (srv : cache_server) (h : cache_handle_t)
    (r : request_rec) (preserve_orig : Bool) (n : String)
    (hct : strcasecmp_eq "Content-Type" n = false)
    (hlm : strcasecmp_eq "Last-Modified" n = false)
    (hsc : strcasecmp_eq "Set-Cookie" n = false) :
    ((ap_cache_accept_headers srv h r preserve_orig).2.headers_out.filter
        (fun e => strcasecmp_eq e.1 n)).length ≤ 1 ∧
      apr_table_get (ap_cache_accept_headers srv h r preserve_orig).2.headers_out n =
        (if preserve_orig then (table_last r.headers_out n).or (table_last h.resp_hdrs n)
         else (table_last h.resp_hdrs n).or (table_last r.headers_out n)) ∧
      ((h.resp_hdrs.filter (fun e => strcasecmp_eq e.1 n)).length ≤ 1 →
        (r.headers_out.filter (fun e => strcasecmp_eq e.1 n)).length ≤ 1 →
        apr_table_get (ap_cache_accept_headers srv h r preserve_orig).2.headers_out n =
          (if preserve_orig then
            (apr_table_get r.headers_out n).or (apr_table_get h.resp_hdrs n)
           else (apr_table_get h.resp_hdrs n).or (apr_table_get r.headers_out n))) := by
  have hval : apr_table_get (ap_cache_accept_headers srv h r preserve_orig).2.headers_out n =
      (if preserve_orig then (table_last r.headers_out n).or (table_last h.resp_hdrs n)
       else (table_last h.resp_hdrs n).or (table_last r.headers_out n)) := by
    rw [ap_cache_accept_headers_headers_out]
    cases preserve_orig <;>
      simp [apr_table_get_overlap, table_last_unset, hct, hlm, hsc]
  refine ⟨?_, hval, ?_⟩
  · rw [ap_cache_accept_headers_headers_out]
    cases preserve_orig
    · simpa using count_overlap _ _ n
    · simpa using count_overlap _ _ n
  · intro h1 h2
    rw [hval, table_last_eq_get_of_unique _ n h1, table_last_eq_get_of_unique _ n h2]

/-- C10, as amended, on a response with Server from the cache and from the server:
with preserve_orig false the cached value wins, with preserve_orig true the
pre-existing one, and the name occurs once. -/
theorem accept_headers_merge_precedence_witness :
    (strcasecmp_eq "Content-Type" "server" = false ∧
      strcasecmp_eq "Last-Modified" "server" = false ∧
      strcasecmp_eq "Set-Cookie" "server" = false) ∧
    apr_table_get (ap_cache_accept_headers (example_server true) warning_handle
      { headers_out := [("Server", "local"), ("Date", "today")] } false).2.headers_out "server"
      = some "origin" ∧
    apr_table_get (ap_cache_accept_headers (example_server true) warning_handle
      { headers_out := [("Server", "local"), ("Date", "today")] } true).2.headers_out "server"
      = some "local" ∧
    ((ap_cache_accept_headers (example_server true) warning_handle
      { headers_out := [("Server", "local"), ("Date", "today")] } false).2.headers_out.filter
        (fun e => strcasecmp_eq e.1 "server")).length ≤ 1 := by
  have hf := accept_headers_merge_precedence (example_server true) warning_handle
    { headers_out := [("Server", "local"), ("Date", "today")] } false "server"
    (by decide) (by decide) (by decide)
  have ht := accept_headers_merge_precedence (example_server true) warning_handle
    { headers_out := [("Server", "local"), ("Date", "today")] } true "server"
    (by decide) (by decide) (by decide)
  refine ⟨⟨by decide, by decide, by decide⟩, ?_, ?_, hf.1⟩
  · rw [hf.2.1]; decide
  · rw [ht.2.1]; decide

/-- C10 as stated fails: the cached response holds Warning twice and the outgoing
headers do not hold it; the claim gives the cached value, which `apr_table_get` reads as
the first entry, and the merged set holds the value of the second entry. -/
theorem accept_headers_merge_counterexample :
    apr_table_get ({ } : request_rec).headers_out "Warning" = none ∧
    apr_table_get warning_handle.resp_hdrs "Warning" = some "110 - \"Response is stale\"" ∧
    apr_table_get (ap_cache_accept_headers (example_server true) warning_handle
      { } false).2.headers_out "Warning" = some "111 - \"Revalidation failed\"" ∧
    apr_table_get (ap_cache_accept_headers (example_server true) warning_handle
      { } false).2.headers_out "Warning" ≠ apr_table_get warning_handle.resp_hdrs "Warning" := by
  decide

/-! ## Removal -/

/-- C9, as amended: `cache_remove_url` leaves the request state as it was; with neither
a stale nor an active handle it returns OK and makes no call; with a handle (the stale
one if there is one, else the active one) that carries its cache object it returns OK
and calls the `remove_url` of every provider of the chain once, in chain order, each
with that handle, whatever the providers return. -/
theorem cache_remove_url_broadcast (cache : cache_request_rec) :
    (cache_remove_url cache).cache = cache ∧
      (cache.stale_handle = none → cache.handle = none →
        (cache_remove_url cache).rv = some OK ∧ (cache_remove_url cache).calls = []) ∧
      (∀ h key, cache.stale_handle = some h → h.cache_obj = some key →
        (cache_remove_url cache).rv = some OK ∧
        (cache_remove_url cache).calls =
          cache.providers.map (fun node => (node, h, node.provider.remove_url h))) ∧
      (∀ h key, cache.stale_handle = none → cache.handle = some h →
        h.cache_obj = some key →
        (cache_remove_url cache).rv = some OK ∧
        (cache_remove_url cache).calls =
          cache.providers.map (fun node => (node, h, node.provider.remove_url h))) := by
  refine ⟨cache_remove_url_cache cache, ?_, ?_, ?_⟩
  · intro hs hh
    simp [cache_remove_url, hs, hh]
  · intro h key hs hk
    simp [cache_remove_url, hs, hk, remove_loop_calls]
  · intro h key hs hh hk
    simp [cache_remove_url, hs, hh, hk, remove_loop_calls]

/-- C9, as amended, on three providers of which the first and the last hold the entity
and the middle one fails: all three are called, in order, with the stale handle, the
result is OK; with no handle at all nothing is called. -/
theorem cache_remove_url_broadcast_witness :
    (cache_remove_url removal_state).rv = some OK ∧
    (cache_remove_url removal_state).calls.map
        (fun call => (call.1.provider_name, call.2.1.cache_obj, call.2.2))
      = [("mem", some "/old", 0), ("disk", some "/old", 500), ("remote", some "/old", 0)] ∧
    (cache_remove_url { providers := removal_chain }).calls = [] ∧
    (cache_remove_url { providers := removal_chain }).rv = some OK := by
  have h := (cache_remove_url_broadcast removal_state).2.2.1 { cache_obj := some "/old" }
    "/old" rfl rfl
  have h0 := (cache_remove_url_broadcast { providers := removal_chain }).2.1 rfl rfl
  refine ⟨h.1, ?_, h0.2, h0.1⟩
  rw [h.2]
  decide

/-- C9 as stated fails: the request state has an active handle whose cache object is
`NULL` (here the handle that `cache_create_entity` binds when a provider returns OK
and sets no object); `cache_remove_url` then faults at the log call of lines 46-47,
returns nothing and calls no provider of the chain. -/
theorem cache_remove_url_counterexample :
    (cache_create_entity (example_server true) { uri := "/a" }
        { providers := bare_chain } (-1)).rv = OK ∧
    (cache_create_entity (example_server true) { uri := "/a" }
        { providers := bare_chain } (-1)).cache.stale_handle = none ∧
    (cache_create_entity (example_server true) { uri := "/a" }
        { providers := bare_chain } (-1)).cache.handle = some { cache_obj := none } ∧
    (cache_remove_url (cache_create_entity (example_server true) { uri := "/a" }
        { providers := bare_chain } (-1)).cache).rv = none ∧
    (cache_remove_url (cache_create_entity (example_server true) { uri := "/a" }
        { providers := bare_chain } (-1)).cache).rv ≠ some OK ∧
    (cache_remove_url (cache_create_entity (example_server true) { uri := "/a" }
        { providers := bare_chain } (-1)).cache).calls.length = 0 ∧
    bare_chain.length = 2 := by
  refine ⟨by decide, by decide, by decide, by decide, by decide, by decide, by decide⟩

/-! ## Lemmas on the response side of `ap_cache_accept_headers` -/

theorem foldl_addn (l acc : apr_table_t) :
    l.foldl (fun a e => set_cookie_doo_doo a e.1 e.2) acc = acc ++ l := by
  induction l generalizing acc with
  | nil => simp
  | cons e l ih =>
    rw [List.foldl_cons, ih]
    simp [set_cookie_doo_doo, apr_table_addn]

theorem apr_table_do_cookies (acc t : apr_table_t) (key : String) :
    apr_table_do set_cookie_doo_doo acc t key =
      acc ++ t.filter (fun e => strcasecmp_eq e.1 key) := by
  simp [apr_table_do, foldl_addn]

theorem overlay_if_cookies (r0 : request_rec) (c : apr_table_t) :
    (if (!apr_is_empty_table c) = true then
        { r0 with err_headers_out := apr_table_overlay r0.err_headers_out c }
      else r0) = { r0 with err_headers_out := r0.err_headers_out ++ c } := by
  cases c with
  | nil => simp [apr_is_empty_table]
  | cons e c => simp [apr_is_empty_table, apr_table_overlay]

theorem ap_cache_accept_headers_eq (srv : cache_server) (h : cache_handle_t)
    (r : request_rec) (preserve_orig : Bool) :
    ap_cache_accept_headers srv h r preserve_orig =
      ({ h with resp_hdrs := apr_table_unset (apr_table_unset (apr_table_unset
          h.resp_hdrs "Content-Type") "Last-Modified") "Set-Cookie" },
       { r with
          content_type := (apr_table_get h.resp_hdrs "Content-Type").or r.content_type
          mtime :=
            match apr_table_get h.resp_hdrs "Last-Modified" with
            | some v =>
              srv.rationalize_mtime (srv.update_mtime r.mtime (srv.apr_date_parse_http v))
            | none => r.mtime
          headers_out :=
            if preserve_orig then
              apr_table_overlap (apr_table_unset (apr_table_unset (apr_table_unset
                h.resp_hdrs "Content-Type") "Last-Modified") "Set-Cookie") r.headers_out
            else
              apr_table_overlap r.headers_out (apr_table_unset (apr_table_unset
                (apr_table_unset h.resp_hdrs "Content-Type") "Last-Modified") "Set-Cookie")
          err_headers_out :=
            apr_table_unset r.err_headers_out "Set-Cookie" ++
              (r.err_headers_out.filter (fun e => strcasecmp_eq e.1 "Set-Cookie") ++
                h.resp_hdrs.filter (fun e => strcasecmp_eq e.1 "Set-Cookie")) }) := by
  have hct : strcasecmp_eq "Content-Type" "Set-Cookie" = false := by decide
  have hlm : strcasecmp_eq "Last-Modified" "Set-Cookie" = false := by decide
  have hcl : strcasecmp_eq "Content-Type" "Last-Modified" = false := by decide
  have hglm : apr_table_get (apr_table_unset h.resp_hdrs "Content-Type") "Last-Modified"
      = apr_table_get h.resp_hdrs "Last-Modified" := by
    rw [apr_table_get_unset, hcl]; rfl
  unfold ap_cache_accept_headers
  simp only [overlay_if_cookies, apr_table_do_cookies, List.nil_append, apr_table_copy]
  cases hgct : apr_table_get h.resp_hdrs "Content-Type" with
  | none =>
    simp only [apr_table_unset_of_get_none _ _ hgct]
    cases hgl : apr_table_get h.resp_hdrs "Last-Modified" with
    | none =>
      simp only [apr_table_unset_of_get_none _ _ hgl]
      cases preserve_orig <;> simp
    | some w =>
      simp only []
      cases preserve_orig <;>
        simp [ap_set_last_modified, ap_update_mtime, filter_key_unset _ _ _ hlm]
  | some v =>
    simp only [hglm]
    cases hgl : apr_table_get h.resp_hdrs "Last-Modified" with
    | none =>
      have hgl2 : apr_table_get (apr_table_unset h.resp_hdrs "Content-Type") "Last-Modified"
          = none := by rw [hglm, hgl]
      simp only [apr_table_unset_of_get_none _ _ hgl2]
      cases preserve_orig <;>
        simp [ap_set_content_type, filter_key_unset _ _ _ hct]
    | some w =>
      simp only []
      cases preserve_orig <;>
        simp [ap_set_content_type, ap_set_last_modified, ap_update_mtime,
          filter_key_unset _ _ _ hlm, filter_key_unset _ _ _ hct]

theorem table_last_eq_none_of_get_none (t : apr_table_t) (n : String)
    (h : apr_table_get t n = none) : table_last t n = none := by
  induction t with
  | nil => rfl
  | cons e t ih =>
    obtain ⟨k, v⟩ := e
    simp only [apr_table_get] at h
    split at h
    · cases h
    · rename_i hk
      simp [table_last, ih h, hk]

theorem filter_key_unset_self (t : apr_table_t) (k : String) :
    (apr_table_unset t k).filter (fun e => strcasecmp_eq e.1 k) = [] := by
  simp [apr_table_unset, List.filter_filter, List.filter_eq_nil_iff]

theorem apr_table_unset_unset_self (t : apr_table_t) (k : String) :
    apr_table_unset (apr_table_unset t k) k = apr_table_unset t k := by
  simp [apr_table_unset, List.filter_filter]

theorem apr_table_unset_comm (t : apr_table_t) (a b : String) :
    apr_table_unset (apr_table_unset t a) b = apr_table_unset (apr_table_unset t b) a := by
  simp only [apr_table_unset, List.filter_filter]
  apply List.filter_congr
  intro e _
  exact Bool.and_comm _ _

/-! ## Set-Cookie, Content-Type and Last-Modified -/

/-- C11: after `ap_cache_accept_headers` (with either preserve_orig) the Set-Cookie
entries of the error-path headers are the Set-Cookie entries that were there followed
by the Set-Cookie entries of the cached response, each as an entry of its own and in
the original order, so their number is the sum of the two counts; the cached response
headers hold no Set-Cookie; the other entries of the error-path headers are kept, in
order; and the outgoing headers are what they would be had the cached response held no
Set-Cookie at all, in particular without Set-Cookie when they held none before. -/
theorem set_cookie_never_coalesced (srv : cache_server) (h : cache_handle_t)
    (r : request_rec) (preserve_orig : Bool) :
    (ap_cache_accept_headers srv h r preserve_orig).2.err_headers_out.filter
        (fun e => strcasecmp_eq e.1 "Set-Cookie") =
      r.err_headers_out.filter (fun e => strcasecmp_eq e.1 "Set-Cookie") ++
        h.resp_hdrs.filter (fun e => strcasecmp_eq e.1 "Set-Cookie") ∧
    ((ap_cache_accept_headers srv h r preserve_orig).2.err_headers_out.filter
        (fun e => strcasecmp_eq e.1 "Set-Cookie")).length =
      (r.err_headers_out.filter (fun e => strcasecmp_eq e.1 "Set-Cookie")).length +
        (h.resp_hdrs.filter (fun e => strcasecmp_eq e.1 "Set-Cookie")).length ∧
    (ap_cache_accept_headers srv h r preserve_orig).1.resp_hdrs.filter
        (fun e => strcasecmp_eq e.1 "Set-Cookie") = [] ∧
    (ap_cache_accept_headers srv h r preserve_orig).2.err_headers_out.filter
        (fun e => !strcasecmp_eq e.1 "Set-Cookie") =
      r.err_headers_out.filter (fun e => !strcasecmp_eq e.1 "Set-Cookie") ∧
    (ap_cache_accept_headers srv h r preserve_orig).2.headers_out =
      (ap_cache_accept_headers srv
        { h with resp_hdrs := apr_table_unset h.resp_hdrs "Set-Cookie" }
        r preserve_orig).2.headers_out ∧
    (apr_table_get r.headers_out "Set-Cookie" = none →
      apr_table_get (ap_cache_accept_headers srv h r preserve_orig).2.headers_out
        "Set-Cookie" = none) := by
  have herr : (ap_cache_accept_headers srv h r preserve_orig).2.err_headers_out.filter
        (fun e => strcasecmp_eq e.1 "Set-Cookie") =
      r.err_headers_out.filter (fun e => strcasecmp_eq e.1 "Set-Cookie") ++
        h.resp_hdrs.filter (fun e => strcasecmp_eq e.1 "Set-Cookie") := by
    rw [ap_cache_accept_headers_eq]
    simp only [List.filter_append, filter_key_unset_self, List.nil_append, List.filter_filter,
      Bool.and_self]
  refine ⟨herr, by rw [herr, List.length_append], ?_, ?_, ?_, ?_⟩
  · rw [ap_cache_accept_headers_eq]
    exact filter_key_unset_self _ _
  · rw [ap_cache_accept_headers_eq]
    simp [apr_table_unset, List.filter_append, List.filter_filter]
  · have hU : apr_table_unset (apr_table_unset (apr_table_unset
          (apr_table_unset h.resp_hdrs "Set-Cookie") "Content-Type") "Last-Modified")
          "Set-Cookie" =
        apr_table_unset (apr_table_unset (apr_table_unset h.resp_hdrs "Content-Type")
          "Last-Modified") "Set-Cookie" := by
      simp only [apr_table_unset, List.filter_filter]
      apply List.filter_congr
      intro e _
      cases strcasecmp_eq e.1 "Set-Cookie" <;> simp
    rw [ap_cache_accept_headers_eq, ap_cache_accept_headers_eq]
    simp only [hU]
  · intro hout
    rw [ap_cache_accept_headers_eq]
    cases preserve_orig <;>
      simp [apr_table_get_overlap, table_last_unset, strcasecmp_eq_refl,
        table_last_eq_none_of_get_none _ _ hout]

/-- C11, on a cached response with two cookies and an error path with one: the three
cookies are three entries of the error-path headers, after the other error-path
entries, and none is in the outgoing headers. -/
theorem set_cookie_never_coalesced_witness :
    (ap_cache_accept_headers (example_server true) cookie_handle cookie_request
        false).2.err_headers_out.filter (fun e => strcasecmp_eq e.1 "Set-Cookie")
      = [("Set-Cookie", "e=0"), ("Set-Cookie", "a=1"), ("set-cookie", "b=2")] ∧
    apr_table_get (ap_cache_accept_headers (example_server true) cookie_handle
        cookie_request false).2.headers_out "Set-Cookie" = none ∧
    (ap_cache_accept_headers (example_server true) cookie_handle cookie_request
        false).1.resp_hdrs.filter (fun e => strcasecmp_eq e.1 "Set-Cookie") = [] ∧
    (ap_cache_accept_headers (example_server true) cookie_handle cookie_request
        false).2.err_headers_out
      = [("X-Error", "1"), ("Set-Cookie", "e=0"), ("Set-Cookie", "a=1"),
         ("set-cookie", "b=2")] ∧
    (ap_cache_accept_headers (example_server true) cookie_handle cookie_request
        false).2.headers_out = [("Server", "origin")] ∧
    (ap_cache_accept_headers (example_server true) cookie_handle cookie_request
        false).1.resp_hdrs = [("Server", "origin")] := by
  have h := set_cookie_never_coalesced (example_server true) cookie_handle cookie_request
    false
  refine ⟨?_, h.2.2.2.2.2 rfl, h.2.2.1, by decide, by decide, by decide⟩
  rw [h.1]
  decide

/-- C12: after `ap_cache_accept_headers` (with either preserve_orig) a cached
Content-Type value is the content-type attribute of the response, a cached
Last-Modified value, parsed as an HTTP date, has gone through the server's update and
normalisation into the modification-time attribute, the cached response headers hold
neither header, and the outgoing headers hold neither header unless they held it
before the call. Without the cached header the attribute is as it was. -/
theorem content_type_last_modified_applied (srv : cache_server) (h : cache_handle_t)
    (r : request_rec) (preserve_orig : Bool) :
    (∀ v, apr_table_get h.resp_hdrs "Content-Type" = some v →
      (ap_cache_accept_headers srv h r preserve_orig).2.content_type = some v) ∧
    (∀ v, apr_table_get h.resp_hdrs "Last-Modified" = some v →
      (ap_cache_accept_headers srv h r preserve_orig).2.mtime =
        srv.rationalize_mtime (srv.update_mtime r.mtime (srv.apr_date_parse_http v))) ∧
    (apr_table_get h.resp_hdrs "Content-Type" = none →
      (ap_cache_accept_headers srv h r preserve_orig).2.content_type = r.content_type) ∧
    (apr_table_get h.resp_hdrs "Last-Modified" = none →
      (ap_cache_accept_headers srv h r preserve_orig).2.mtime = r.mtime) ∧
    apr_table_get (ap_cache_accept_headers srv h r preserve_orig).1.resp_hdrs
      "Content-Type" = none ∧
    apr_table_get (ap_cache_accept_headers srv h r preserve_orig).1.resp_hdrs
      "Last-Modified" = none ∧
    (apr_table_get r.headers_out "Content-Type" = none →
      apr_table_get (ap_cache_accept_headers srv h r preserve_orig).2.headers_out
        "Content-Type" = none) ∧
    (apr_table_get r.headers_out "Last-Modified" = none →
      apr_table_get (ap_cache_accept_headers srv h r preserve_orig).2.headers_out
        "Last-Modified" = none) := by
  have d1 : strcasecmp_eq "Set-Cookie" "Content-Type" = false := by decide
  have d2 : strcasecmp_eq "Last-Modified" "Content-Type" = false := by decide
  have d3 : strcasecmp_eq "Set-Cookie" "Last-Modified" = false := by decide
  rw [ap_cache_accept_headers_eq]
  refine ⟨?_, ?_, ?_, ?_, ?_, ?_, ?_, ?_⟩
  · intro v hv
    simp [hv]
  · intro v hv
    simp [hv]
  · intro hv
    simp [hv]
  · intro hv
    simp [hv]
  · simp [apr_table_get_unset, strcasecmp_eq_refl, d1, d2]
  · simp [apr_table_get_unset, strcasecmp_eq_refl, d3]
  · intro hout
    cases preserve_orig <;>
      simp [apr_table_get_overlap, table_last_unset, strcasecmp_eq_refl, d1, d2,
        table_last_eq_none_of_get_none _ _ hout]
  · intro hout
    cases preserve_orig <;>
      simp [apr_table_get_overlap, table_last_unset, strcasecmp_eq_refl, d3,
        table_last_eq_none_of_get_none _ _ hout]

/-- C12, on a cached response with Content-Type and Last-Modified: both go to the
attributes and neither is in the handle or in the outgoing headers afterwards. -/
theorem content_type_last_modified_applied_witness :
    (ap_cache_accept_headers (example_server true) dated_handle { uri := "/a" }
        false).2.content_type = some "text/html" ∧
    (ap_cache_accept_headers (example_server true) dated_handle { uri := "/a" }
        false).2.mtime = 29 ∧
    (ap_cache_accept_headers (example_server true) dated_handle { uri := "/a" }
        false).1.resp_hdrs = [("ETag", "\"abc\"")] ∧
    apr_table_get (ap_cache_accept_headers (example_server true) dated_handle { uri := "/a" }
        true).2.headers_out "content-type" = none ∧
    apr_table_get (ap_cache_accept_headers (example_server true) dated_handle { uri := "/a" }
        true).2.headers_out "Last-Modified" = none := by
  have h := content_type_last_modified_applied (example_server true) dated_handle
    { uri := "/a" } false
  have ht := content_type_last_modified_applied (example_server true) dated_handle
    { uri := "/a" } true
  exact ⟨h.1 "text/html" rfl, (h.2.1 "Sun, 06 Nov 1994 08:49:37 GMT" rfl).trans (by decide),
    by decide, by decide, ht.2.2.2.2.2.2.2 rfl⟩

/-! ## Lemmas on the key -/

theorem cache_generate_key_default_key (env : key_server) (r : request_rec) :
    (cache_generate_key_default env r).2 =
      key_scheme r ++ "://" ++ key_hostname env r ++ key_port_str env r ++
        (match r.parsed_uri.path with
         | none => ""
         | some path => path ++ "?" ++ (match r.args with
           | none => ""
           | some query => query)) := by
  unfold cache_generate_key_default
  cases r.parsed_uri.path with
  | none => simp [apr_pstrcat, String.append_assoc]
  | some path =>
    cases r.args with
    | none => simp [apr_pstrcat, String.append_assoc]
    | some query => simp [apr_pstrcat, String.append_assoc]

theorem lower_copy_data (s : String) : (lower_copy s).data = s.data.map apr_tolower := rfl

theorem split_at_first (P : Char → Bool) (xs xs2 ys ys2 : List Char) (c c2 : Char)
    (hxs : ∀ x ∈ xs, P x = false) (hxs2 : ∀ x ∈ xs2, P x = false)
    (hc : P c = true) (hc2 : P c2 = true)
    (heq : xs ++ c :: ys = xs2 ++ c2 :: ys2) : xs = xs2 ∧ c = c2 ∧ ys = ys2 := by
  induction xs generalizing xs2 with
  | nil =>
    cases xs2 with
    | nil =>
      simp only [List.nil_append, List.cons.injEq] at heq
      exact ⟨rfl, heq.1, heq.2⟩
    | cons b t2 =>
      simp only [List.nil_append, List.cons_append, List.cons.injEq] at heq
      have := hxs2 b (List.mem_cons_self _ _)
      rw [← heq.1, hc] at this
      cases this
  | cons a t ih =>
    cases xs2 with
    | nil =>
      simp only [List.nil_append, List.cons_append, List.cons.injEq] at heq
      have := hxs a (List.mem_cons_self _ _)
      rw [heq.1, hc2] at this
      cases this
    | cons b t2 =>
      simp only [List.cons_append, List.cons.injEq] at heq
      obtain ⟨h1, h2, h3⟩ := ih t2 (fun x hx => hxs x (List.mem_cons_of_mem _ hx))
        (fun x hx => hxs2 x (List.mem_cons_of_mem _ hx)) heq.2
      exact ⟨by rw [heq.1, h1], h2, h3⟩

theorem key_components_injective (s1 h1 p1 path1 q1 s2 h2 p2 path2 q2 : String)
    (wf1 : key_components_wf s1 h1 p1 path1) (wf2 : key_components_wf s2 h2 p2 path2)
    (heq : s1 ++ "://" ++ h1 ++ p1 ++ (path1 ++ "?" ++ q1) =
      s2 ++ "://" ++ h2 ++ p2 ++ (path2 ++ "?" ++ q2)) :
    s1 = s2 ∧ h1 = h2 ∧ p1 = p2 ∧ path1 = path2 ∧ q1 = q2 := by
  obtain ⟨ws1, wh1, wh1s, wp1, ⟨rest1, hr1⟩, wq1⟩ := wf1
  obtain ⟨ws2, wh2, wh2s, wp2, ⟨rest2, hr2⟩, wq2⟩ := wf2
  subst hr1 hr2
  have hsep : ("://" : String).data = [':', '/', '/'] := rfl
  have hslash : ("/" : String).data = ['/'] := rfl
  have hq : ("?" : String).data = ['?'] := rfl
  have hcolon : (":" : String).data = [':'] := rfl
  have hd := String.ext_iff.1 heq
  simp only [String.data_append, hsep, hslash, hq, List.append_assoc, List.cons_append,
    List.nil_append] at hd
  simp only [String.data_append, hslash, List.cons_append, List.nil_append, List.mem_cons,
    not_or] at wq1 wq2
  -- the scheme ends at the first colon
  obtain ⟨e1, -, e2⟩ := split_at_first (fun c => c == ':') s1.data s2.data _ _ ':' ':'
    (fun x hx => by simpa using fun h : x = ':' => ws1 (h ▸ hx))
    (fun x hx => by simpa using fun h : x = ':' => ws2 (h ▸ hx))
    (by simp) (by simp) hd
  simp only [List.cons.injEq, true_and] at e2
  -- the host ends at the first colon or slash
  have hport : ∀ (port rest query : String),
      (port = "" ∨ ∃ digits : String, port = ":" ++ digits ∧ '/' ∉ digits.data) →
      ∃ c ys, port.data ++ '/' :: (rest.data ++ '?' :: query.data) = c :: ys ∧
        (c == ':' || c == '/') = true ∧ ∀ x ∈ port.data, (x == '/') = false := by
    intro port rest query hp
    rcases hp with hp | ⟨digits, hp, hdig⟩
    · subst hp
      exact ⟨'/', _, rfl, by decide, by simp⟩
    · subst hp
      refine ⟨':', digits.data ++ '/' :: (rest.data ++ '?' :: query.data), ?_, by decide, ?_⟩
      · simp [String.data_append, hcolon]
      · intro x hx
        simp only [String.data_append, hcolon, List.cons_append, List.nil_append,
          List.mem_cons] at hx
        rcases hx with hx | hx
        · subst hx; decide
        · simpa using fun h : x = '/' => hdig (h ▸ hx)
  obtain ⟨c1, ys1, ht1, hc1, hp1⟩ := hport p1 rest1 q1 wp1
  obtain ⟨c2, ys2, ht2, hc2, hp2⟩ := hport p2 rest2 q2 wp2
  rw [ht1, ht2] at e2
  obtain ⟨e3, e4, e5⟩ := split_at_first (fun c => c == ':' || c == '/') h1.data h2.data _ _
    c1 c2
    (fun x hx => by
      simp only [Bool.or_eq_false_iff, beq_eq_false_iff_ne, ne_eq]
      exact ⟨fun h => wh1 (h ▸ hx), fun h => wh1s (h ▸ hx)⟩)
    (fun x hx => by
      simp only [Bool.or_eq_false_iff, beq_eq_false_iff_ne, ne_eq]
      exact ⟨fun h => wh2 (h ▸ hx), fun h => wh2s (h ▸ hx)⟩)
    hc1 hc2 e2
  -- the port segment ends at the first slash
  have e6 : p1.data ++ '/' :: (rest1.data ++ '?' :: q1.data) =
      p2.data ++ '/' :: (rest2.data ++ '?' :: q2.data) := by
    rw [ht1, ht2, e4, e5]
  obtain ⟨e7, -, e8⟩ := split_at_first (fun c => c == '/') p1.data p2.data _ _ '/' '/'
    hp1 hp2 (by simp) (by simp) e6
  -- the path ends at the first question mark
  obtain ⟨e9, -, e10⟩ := split_at_first (fun c => c == '?') rest1.data rest2.data _ _
    '?' '?'
    (fun x hx => by simpa using fun h : x = '?' => wq1.2 (h ▸ hx))
    (fun x hx => by simpa using fun h : x = '?' => wq2.2 (h ▸ hx))
    (by simp) (by simp) e8
  exact ⟨String.ext e1, String.ext e3, String.ext e7, by rw [String.ext e9], String.ext e10⟩

/-! ## Key generation -/

/-- C13: for a request whose path and query are both present,
`cache_generate_key_default` returns APR_SUCCESS and the key is scheme, "://", host,
port segment, path, "?" and query joined in this order, where the scheme is the
request-target's scheme with every character lower-cased when the request is proxied
and the request-target has a scheme, and "http" otherwise, and the port segment is
empty or a colon followed by the port. -/
theorem key_format (env : key_server) (r : request_rec) (path query : String)
    (hpath : r.parsed_uri.path = some path) (hargs : r.args = some query) :
    (cache_generate_key_default env r).1 = APR_SUCCESS ∧
    (cache_generate_key_default env r).2 =
      key_scheme r ++ "://" ++ key_hostname env r ++ key_port_str env r ++ path ++ "?"
        ++ query ∧
    (∀ sch, r.proxyreq ≠ 0 → r.parsed_uri.scheme = some sch →
      (key_scheme r).data = sch.data.map apr_tolower) ∧
    ((r.proxyreq = 0 ∨ r.parsed_uri.scheme = none) → key_scheme r = "http") ∧
    (key_port_str env r = "" ∨ ∃ port : String, key_port_str env r = ":" ++ port) := by
  refine ⟨rfl, ?_, ?_, ?_, ?_⟩
  · rw [cache_generate_key_default_key, hpath, hargs]
    simp only [String.append_assoc]
  · intro sch hp hs
    simp [key_scheme, hp, hs, lower_copy_data]
  · intro h
    rcases h with h | h
    · simp [key_scheme, h]
    · simp only [key_scheme, h]
      split <;> rfl
  · unfold key_port_str
    split
    · split
      · exact Or.inr ⟨_, rfl⟩
      · split
        · exact Or.inr ⟨_, rfl⟩
        · exact Or.inl rfl
    · exact Or.inr ⟨_, rfl⟩

/-- C13, on a forward proxy request for HTTP://HOST.example/index.html?x=1 and on a
local request for /index.html?x=1 to a server on port 8080. -/
theorem key_format_witness :
    (forward_request.parsed_uri.path = some "/index.html" ∧
      forward_request.args = some "x=1") ∧
    (cache_generate_key_default example_key_server forward_request).2
      = "http://host.example:80/index.html?x=1" ∧
    (cache_generate_key_default example_key_server local_request).2
      = "http://www.Example.org:8080/index.html?x=1" := by
  have h := key_format example_key_server forward_request "/index.html" "x=1" rfl rfl
  have h2 := key_format example_key_server local_request "/index.html" "x=1" rfl rfl
  refine ⟨⟨rfl, rfl⟩, ?_, ?_⟩
  · rw [h.2.1]; decide
  · rw [h2.2.1]; decide

/-- C14: the host that `cache_generate_key_default` puts into the key, right after the
scheme and "://", is, for a request that is not proxied or is reverse-proxied, the
server's canonical name exactly as `ap_get_server_name` gives it, or "_default_" when it
gives none; for a forward-proxied request it is the request-target's host with every
character lower-cased, or "_default_" when the request-target has no host. -/
theorem key_host_canonical (env : key_server) (r : request_rec) :
    (cache_generate_key_default env r).2 =
      key_scheme r ++ "://" ++ key_hostname env r ++ key_port_str env r ++
        (match r.parsed_uri.path with
         | none => ""
         | some path => path ++ "?" ++ (match r.args with
           | none => ""
           | some query => query)) ∧
    ((r.proxyreq = PROXYREQ_NONE ∨ r.proxyreq = PROXYREQ_REVERSE) →
      (∀ name, env.ap_get_server_name r = some name → key_hostname env r = name) ∧
      (env.ap_get_server_name r = none → key_hostname env r = "_default_")) ∧
    (r.proxyreq = PROXYREQ_PROXY →
      (∀ hn, r.parsed_uri.hostname = some hn →
        (key_hostname env r).data = hn.data.map apr_tolower) ∧
      (r.parsed_uri.hostname = none → key_hostname env r = "_default_")) := by
  refine ⟨cache_generate_key_default_key env r, ?_, ?_⟩
  · intro hp
    have hcond : r.proxyreq = 0 ∨ r.proxyreq = PROXYREQ_REVERSE := hp
    refine ⟨fun name hn => ?_, fun hn => ?_⟩
    · simp [key_hostname, hcond, hn]
    · simp [key_hostname, hcond, hn]
  · intro hp
    have hcond : ¬ (r.proxyreq = 0 ∨ r.proxyreq = PROXYREQ_REVERSE) := by
      rw [hp]; decide
    refine ⟨fun hn hh => ?_, fun hh => ?_⟩
    · simp [key_hostname, hcond, hh, lower_copy_data]
    · simp [key_hostname, hcond, hh]

/-- C14, on a forward proxy request to HOST.example (key host host.example), on a local
request to a server named www.Example.org (name kept as given) and on a local request
to a server with no name (key host _default_). -/
theorem key_host_canonical_witness :
    key_hostname example_key_server forward_request = "host.example" ∧
    key_hostname example_key_server local_request = "www.Example.org" ∧
    key_hostname nameless_key_server local_request = "_default_" ∧
    (cache_generate_key_default nameless_key_server local_request).2
      = "http://_default_:80/index.html?x=1" := by
  have h := key_host_canonical example_key_server forward_request
  have h2 := key_host_canonical example_key_server local_request
  have h3 := key_host_canonical nameless_key_server local_request
  refine ⟨?_, (h2.2.1 (Or.inl rfl)).1 _ rfl, (h3.2.1 (Or.inl rfl)).2 rfl, ?_⟩
  · exact String.ext (((h.2.2 rfl).1 "HOST.example" rfl).trans (by decide))
  · rw [h3.1]; decide

/-- C15: the port segment that `cache_generate_key_default` puts into the key, right
after scheme, "://" and host and before path, "?" and query, is, for a request that is
not proxied, a colon and the decimal server port; for a proxied
request (forward or reverse), a colon and the request-target's port string with every
character lower-cased when there is one, else a colon and the decimal default port of
the key's scheme when `apr_uri_port_of_scheme` gives a non-zero one, else empty. -/
theorem key_port_selection (env : key_server) (r : request_rec) :
    (cache_generate_key_default env r).2 =
      key_scheme r ++ "://" ++ key_hostname env r ++ key_port_str env r ++
        (match r.parsed_uri.path with
         | none => ""
         | some path => path ++ "?" ++ (match r.args with
           | none => ""
           | some query => query)) ∧
    (r.proxyreq = PROXYREQ_NONE →
      key_port_str env r = ":" ++ format_u (env.ap_get_server_port r)) ∧
    (r.proxyreq ≠ PROXYREQ_NONE →
      (∀ ps, r.parsed_uri.port_str = some ps →
        key_port_str env r = ":" ++ lower_copy ps ∧
          (lower_copy ps).data = ps.data.map apr_tolower) ∧
      (r.parsed_uri.port_str = none → env.apr_uri_port_of_scheme (key_scheme r) ≠ 0 →
        key_port_str env r = ":" ++ format_u (env.apr_uri_port_of_scheme (key_scheme r))) ∧
      (r.parsed_uri.port_str = none → env.apr_uri_port_of_scheme (key_scheme r) = 0 →
        key_port_str env r = "")) := by
  refine ⟨cache_generate_key_default_key env r, ?_, ?_⟩
  · intro hp
    have hp0 : r.proxyreq = 0 := hp
    simp [key_port_str, hp0]
  · intro hp
    have hp0 : r.proxyreq ≠ 0 := hp
    refine ⟨fun ps hps => ?_, fun hps hport => ?_, fun hps hport => ?_⟩
    · simp [key_port_str, hp0, hps, lower_copy_data]
    · simp [key_port_str, hp0, hps, hport]
    · simp [key_port_str, hp0, hps, hport]

/-- C15, on a local request (server port 8080), a forward proxy request with no port
(default port of http), a reverse proxy request with an explicit port, and a proxy
request with a scheme that has no registered port: the port segments and the keys. -/
theorem key_port_selection_witness :
    (key_port_str example_key_server local_request = ":8080" ∧
      (cache_generate_key_default example_key_server local_request).2
        = "http://www.Example.org:8080/index.html?x=1") ∧
    (key_port_str example_key_server forward_request = ":80" ∧
      (cache_generate_key_default example_key_server forward_request).2
        = "http://host.example:80/index.html?x=1") ∧
    (key_port_str example_key_server reverse_port_request = ":8443" ∧
      (cache_generate_key_default example_key_server reverse_port_request).2
        = "http://www.Example.org:8443/app?") ∧
    (key_port_str example_key_server gopher_request = "" ∧
      (cache_generate_key_default example_key_server gopher_request).2
        = "gopher://host.example/1?") := by
  have h1 := key_port_selection example_key_server local_request
  have h2 := key_port_selection example_key_server forward_request
  have h3 := key_port_selection example_key_server reverse_port_request
  have h4 := key_port_selection example_key_server gopher_request
  have p1 := (h1.2.1 rfl).trans (show _ = ":8080" by decide)
  have p2 := ((h2.2.2 (by decide)).2.1 rfl (by decide)).trans (show _ = ":80" by decide)
  have p3 := (((h3.2.2 (by decide)).1 "8443" rfl).1).trans (show _ = ":8443" by decide)
  have p4 := (h4.2.2 (by decide)).2.2 rfl (by decide)
  refine ⟨⟨p1, ?_⟩, ⟨p2, ?_⟩, ⟨p3, ?_⟩, ⟨p4, ?_⟩⟩
  · rw [h1.1, p1]; decide
  · rw [h2.1, p2]; decide
  · rw [h3.1, p3]; decide
  · rw [h4.1, p4]; decide

/-- C16: for two requests whose path and query are present and whose key components
are well formed (scheme without colon, host without colon or slash, port segment empty
or a colon followed by characters other than a slash, path starting with a slash and
without question mark), equal keys from `cache_generate_key_default` imply equal
scheme, host, port segment, path and query. -/
theorem key_unique (env : key_server) (r1 r2 : request_rec)
    (path1 query1 path2 query2 : String)
    (hpath1 : r1.parsed_uri.path = some path1) (hargs1 : r1.args = some query1)
    (hpath2 : r2.parsed_uri.path = some path2) (hargs2 : r2.args = some query2)
    (wf1 : key_components_wf (key_scheme r1) (key_hostname env r1) (key_port_str env r1)
      path1)
    (wf2 : key_components_wf (key_scheme r2) (key_hostname env r2) (key_port_str env r2)
      path2)
    (hkey : (cache_generate_key_default env r1).2 = (cache_generate_key_default env r2).2) :
    key_scheme r1 = key_scheme r2 ∧ key_hostname env r1 = key_hostname env r2 ∧
      key_port_str env r1 = key_port_str env r2 ∧ path1 = path2 ∧ query1 = query2 := by
  rw [cache_generate_key_default_key, cache_generate_key_default_key, hpath1, hargs1,
    hpath2, hargs2] at hkey
  exact key_components_injective _ _ _ _ _ _ _ _ _ _ wf1 wf2 hkey

/-- C16, on two forward proxy requests written with different letter case for the same
target: well formed, equal keys, equal components. -/
theorem key_unique_witness :
    (key_components_wf (key_scheme forward_request)
        (key_hostname example_key_server forward_request)
        (key_port_str example_key_server forward_request) "/index.html" ∧
      (cache_generate_key_default example_key_server forward_request).2 =
        (cache_generate_key_default example_key_server lower_forward_request).2) ∧
    key_scheme forward_request = key_scheme lower_forward_request ∧
    key_hostname example_key_server forward_request =
      key_hostname example_key_server lower_forward_request ∧
    key_port_str example_key_server forward_request =
      key_port_str example_key_server lower_forward_request := by
  have wf1 : key_components_wf (key_scheme forward_request)
      (key_hostname example_key_server forward_request)
      (key_port_str example_key_server forward_request) "/index.html" :=
    ⟨by decide, by decide, by decide, Or.inr ⟨"80", by decide, by decide⟩,
      ⟨"index.html", by decide⟩, by decide⟩
  have wf2 : key_components_wf (key_scheme lower_forward_request)
      (key_hostname example_key_server lower_forward_request)
      (key_port_str example_key_server lower_forward_request) "/index.html" :=
    ⟨by decide, by decide, by decide, Or.inr ⟨"80", by decide, by decide⟩,
      ⟨"index.html", by decide⟩, by decide⟩
  have hk : (cache_generate_key_default example_key_server forward_request).2 =
      (cache_generate_key_default example_key_server lower_forward_request).2 := by decide
  have h := key_unique example_key_server forward_request lower_forward_request
    "/index.html" "x=1" "/index.html" "x=1" rfl rfl rfl rfl wf1 wf2 hk
  exact ⟨⟨wf1, hk⟩, h.1, h.2.1, h.2.2.1⟩

/-- C20: for a request whose parsed path is absent, `cache_generate_key_default` returns
APR_SUCCESS and the key is scheme, "://", host and port segment only, whatever the
query, so two such requests with the same scheme, host and port segment have the same
key; for a request whose path is present and whose query is absent the key is scheme,
"://", host, port segment, path and "?", which is the key of a request with the same
components and an empty query. -/
theorem key_absent_path (env : key_server) (r : request_rec) :
    (cache_generate_key_default env r).1 = APR_SUCCESS ∧
    (r.parsed_uri.path = none →
      (cache_generate_key_default env r).2 =
          key_scheme r ++ "://" ++ key_hostname env r ++ key_port_str env r ∧
        ∀ r2 : request_rec, r2.parsed_uri.path = none → key_scheme r2 = key_scheme r →
          key_hostname env r2 = key_hostname env r →
          key_port_str env r2 = key_port_str env r →
          (cache_generate_key_default env r2).2 = (cache_generate_key_default env r).2) ∧
    (∀ path, r.parsed_uri.path = some path → r.args = none →
      (cache_generate_key_default env r).2 =
          key_scheme r ++ "://" ++ key_hostname env r ++ key_port_str env r ++ path ++ "?" ∧
        ∀ r2 : request_rec, r2.parsed_uri.path = some path → r2.args = some "" →
          key_scheme r2 = key_scheme r →
          key_hostname env r2 = key_hostname env r →
          key_port_str env r2 = key_port_str env r →
          (cache_generate_key_default env r2).2 = (cache_generate_key_default env r).2) := by
  refine ⟨rfl, ?_, ?_⟩
  · intro hp
    have hk : (cache_generate_key_default env r).2 =
        key_scheme r ++ "://" ++ key_hostname env r ++ key_port_str env r := by
      rw [cache_generate_key_default_key, hp]
      simp
    refine ⟨hk, ?_⟩
    intro r2 hp2 hs hh hport
    rw [hk, cache_generate_key_default_key, hp2, hs, hh, hport]
    simp
  · intro path hp ha
    have hk : (cache_generate_key_default env r).2 =
        key_scheme r ++ "://" ++ key_hostname env r ++ key_port_str env r ++ path ++ "?" := by
      rw [cache_generate_key_default_key, hp, ha]
      simp [String.append_assoc]
    refine ⟨hk, ?_⟩
    intro r2 hp2 ha2 hs hh hport
    rw [hk, cache_generate_key_default_key, hp2, ha2, hs, hh, hport]
    simp [String.append_assoc]

/-- C20, on local requests with no parsed path and different queries (same key, no
"?") and on a local request with a path and no query (key ending in "?"). -/
theorem key_absent_path_witness :
    (cache_generate_key_default example_key_server { args := some "x=1" }).2
      = "http://www.Example.org:8080" ∧
    (cache_generate_key_default example_key_server { args := some "y=2" }).2
      = (cache_generate_key_default example_key_server { args := some "x=1" }).2 ∧
    (cache_generate_key_default example_key_server
      { parsed_uri := { path := some "/index.html" } }).2
      = "http://www.Example.org:8080/index.html?" ∧
    (cache_generate_key_default example_key_server
      { parsed_uri := { path := some "/index.html" }, args := some "" }).2
      = (cache_generate_key_default example_key_server
          { parsed_uri := { path := some "/index.html" } }).2 := by
  have h := key_absent_path example_key_server { args := some "x=1" }
  have h2 := key_absent_path example_key_server
    { parsed_uri := { path := some "/index.html" } }
  refine ⟨(h.2.1 rfl).1.trans (by decide),
    (h.2.1 rfl).2 { args := some "y=2" } rfl rfl rfl rfl,
    ((h2.2.2 "/index.html" rfl rfl).1).trans (by decide),
    (h2.2.2 "/index.html" rfl rfl).2
      { parsed_uri := { path := some "/index.html" }, args := some "" } rfl rfl rfl rfl rfl⟩

/-! ## Lemmas on the outcomes of a chain walk -/

theorem chain_declines_cases (call : cache_provider_list → cache_handle_t → Int × cache_handle_t)
    (chain : List cache_provider_list) (h0 : cache_handle_t) :
    (∃ hfin, chain_declines call chain h0 = some hfin) ∨
      (∃ pre node post hi, chain = pre ++ node :: post ∧
        chain_declines call pre h0 = some hi ∧ (call node hi).1 ≠ DECLINED) := by
  induction chain generalizing h0 with
  | nil => exact Or.inl ⟨h0, rfl⟩
  | cons node rest ih =>
    by_cases hd : (call node h0).1 = DECLINED
    · rcases ih (call node h0).2 with ⟨hfin, hf⟩ | ⟨pre, n, post, hi, hc, hp, hn⟩
      · exact Or.inl ⟨hfin, by simp [chain_declines, hd, hf]⟩
      · refine Or.inr ⟨node :: pre, n, post, hi, by simp [hc], ?_, hn⟩
        simp [chain_declines, hd, hp]
    · exact Or.inr ⟨[], node, rest, h0, rfl, rfl, hd⟩

theorem cache_select_cases (srv : cache_server) (r : request_rec)
    (cache : cache_request_rec) (h0 : cache_handle_t) :
    ((cache_select srv r cache h0).cache = cache ∧ (cache_select srv r cache h0).r = r ∧
        (cache_select srv r cache h0).rv ≠ OK) ∨
      (∃ key pre node post hi h1,
        srv.cache_generate_key r = (APR_SUCCESS, key) ∧
        cache.providers = pre ++ node :: post ∧
        chain_declines (open_call r key) pre h0 = some hi ∧
        node.provider.open_entity hi r key = (OK, h1) ∧
        (cache_select srv r cache h0).rv = (cache_select_opened srv r cache node h1).rv ∧
        (cache_select srv r cache h0).r = (cache_select_opened srv r cache node h1).r ∧
        (cache_select srv r cache h0).cache = (cache_select_opened srv r cache node h1).cache ∧
        (cache_select srv r cache h0).calls = pre ++ [node]) := by
  by_cases hk : (srv.cache_generate_key r).1 = APR_SUCCESS
  · have hkey : srv.cache_generate_key r = (APR_SUCCESS, (srv.cache_generate_key r).2) := by
      rw [← hk]
    rcases chain_declines_cases (open_call r (srv.cache_generate_key r).2) cache.providers h0
      with ⟨hfin, hf⟩ | ⟨pre, node, post, hi, hc, hp, hn⟩
    · left
      obtain ⟨e1, e2, e3, -⟩ := select_loop_declined_prefix srv r _ cache cache.providers []
        h0 hfin hf
      rw [cache_select_eq_loop srv r cache h0 _ (cache.providers ++ []) hkey
        (List.append_nil _).symm, e1, e2, e3]
      simp [cache_select_loop, declined_ne_ok]
    · obtain ⟨e1, e2, e3, e4⟩ := select_loop_declined_prefix srv r _ cache pre (node :: post)
        h0 hi hp
      by_cases hok : (node.provider.open_entity hi r (srv.cache_generate_key r).2).1 = OK
      · right
        have hopen : node.provider.open_entity hi r (srv.cache_generate_key r).2 =
            (OK, (node.provider.open_entity hi r (srv.cache_generate_key r).2).2) := by
          rw [← hok]
        exact ⟨(srv.cache_generate_key r).2, pre, node, post, hi,
          (node.provider.open_entity hi r (srv.cache_generate_key r).2).2, hkey, hc, hp,
          hopen, cache_select_first_open srv r cache h0 (srv.cache_generate_key r).2 pre post
            node hi _ hkey hc hp hopen⟩
      · left
        have hn2 : ¬ (node.provider.open_entity hi r (srv.cache_generate_key r).2).1
            = DECLINED := hn
        rw [cache_select_eq_loop srv r cache h0 _ _ hkey hc, e1, e2, e3]
        simp [cache_select_loop, hok, hn2]
  · left
    simp [cache_select, hk]
    exact hk

theorem cache_create_entity_cases (srv : cache_server) (r : request_rec)
    (cache : cache_request_rec) (size : Int) :
    ((cache_create_entity srv r cache size).cache = cache ∧
        (cache_create_entity srv r cache size).rv ≠ OK) ∨
      (∃ key pre node post hi hnew,
        srv.cache_generate_key r = (APR_SUCCESS, key) ∧
        cache.providers = pre ++ node :: post ∧
        chain_declines (create_call r key size) pre {} = some hi ∧
        node.provider.create_entity hi r key size = (OK, hnew) ∧
        (cache_create_entity srv r cache size).rv = OK ∧
        (cache_create_entity srv r cache size).cache =
          { cache with handle := some hnew, provider := some node.provider,
                       provider_name := some node.provider_name } ∧
        (cache_create_entity srv r cache size).calls = pre ++ [node]) := by
  by_cases hk : (srv.cache_generate_key r).1 = APR_SUCCESS
  · have hkey : srv.cache_generate_key r = (APR_SUCCESS, (srv.cache_generate_key r).2) := by
      rw [← hk]
    rcases chain_declines_cases (create_call r (srv.cache_generate_key r).2 size)
      cache.providers {} with ⟨hfin, hf⟩ | ⟨pre, node, post, hi, hc, hp, hn⟩
    · left
      obtain ⟨e1, e2, -⟩ := create_loop_declined_prefix r _ size cache cache.providers []
        {} hfin hf
      rw [cache_create_entity_eq_loop srv r cache size _ (cache.providers ++ []) hkey
        (List.append_nil _).symm, e1, e2]
      simp [cache_create_entity_loop, declined_ne_ok]
    · obtain ⟨e1, e2, e3⟩ := create_loop_declined_prefix r _ size cache pre (node :: post)
        {} hi hp
      by_cases hok : (node.provider.create_entity hi r (srv.cache_generate_key r).2 size).1
          = OK
      · right
        have hcreate : node.provider.create_entity hi r (srv.cache_generate_key r).2 size =
            (OK, (node.provider.create_entity hi r (srv.cache_generate_key r).2 size).2) := by
          rw [← hok]
        refine ⟨(srv.cache_generate_key r).2, pre, node, post, hi,
          (node.provider.create_entity hi r (srv.cache_generate_key r).2 size).2, hkey, hc,
          hp, hcreate, ?_⟩
        rw [cache_create_entity_eq_loop srv r cache size _ _ hkey hc, e1, e2, e3]
        simp [cache_create_entity_loop, hok]
      · left
        have hn2 : ¬ (node.provider.create_entity hi r (srv.cache_generate_key r).2 size).1
            = DECLINED := hn
        rw [cache_create_entity_eq_loop srv r cache size _ _ hkey hc, e1, e2]
        simp [cache_create_entity_loop, hok, hn2]
  · left
    simp [cache_create_entity, hk]
    exact hk

theorem cache_select_opened_unusable (srv : cache_server) (r : request_rec)
    (cache : cache_request_rec) (node : cache_provider_list) (h1 : cache_handle_t)
    (hbad : ¬ ((node.provider.recall_headers h1 r).1 = APR_SUCCESS ∧
      vary_check r.headers_in (node.provider.recall_headers h1 r).2.req_hdrs
        (apr_table_get (node.provider.recall_headers h1 r).2.resp_hdrs "Vary") = true)) :
    (cache_select_opened srv r cache node h1).cache = cache ∧
      (cache_select_opened srv r cache node h1).r = r ∧
      (cache_select_opened srv r cache node h1).rv = DECLINED := by
  by_cases hrc : (node.provider.recall_headers h1 r).1 = APR_SUCCESS
  · have hv : vary_check r.headers_in (node.provider.recall_headers h1 r).2.req_hdrs
        (apr_table_get (node.provider.recall_headers h1 r).2.resp_hdrs "Vary") = false := by
      cases hvc : vary_check r.headers_in (node.provider.recall_headers h1 r).2.req_hdrs
        (apr_table_get (node.provider.recall_headers h1 r).2.resp_hdrs "Vary") with
      | false => rfl
      | true => exact absurd ⟨hrc, hvc⟩ hbad
    simp [cache_select_opened, hrc, hv]
  · simp [cache_select_opened, hrc]

theorem cache_select_opened_fresh (srv : cache_server) (r : request_rec)
    (cache : cache_request_rec) (node : cache_provider_list) (h1 h2 : cache_handle_t)
    (hrecall : node.provider.recall_headers h1 r = (APR_SUCCESS, h2))
    (hvary : vary_check r.headers_in h2.req_hdrs (apr_table_get h2.resp_hdrs "Vary") = true)
    (hfresh : srv.ap_cache_check_freshness h2 r = true) :
    cache_select_opened srv r cache node h1 =
      { rv := OK, r := (ap_cache_accept_headers srv h2 r false).2,
        cache := { cache with handle := some (ap_cache_accept_headers srv h2 r false).1,
                              provider := some node.provider,
                              provider_name := some node.provider_name },
        calls := [node] } := by
  simp [cache_select_opened, hrecall, hvary, hfresh]

/-! ## Request-state invariants -/

/-- C17, as amended: starting from a request state with no stale handle, after
`cache_select` the stale handle is set, to the handle hs, if and only if the first
provider that does not decline opened an entity whose recalled handle is hs, which
passed the Vary check, failed the freshness check, and whose cached response headers
hold an ETag or a Last-Modified. -/
theorem stale_handle_iff (srv : cache_server) (r : request_rec)
    (cache : cache_request_rec) (h0 hs : cache_handle_t)
    (hnone : cache.stale_handle = none) :
    (cache_select srv r cache h0).cache.stale_handle = some hs ↔
      ∃ key pre node post hi h1,
        srv.cache_generate_key r = (APR_SUCCESS, key) ∧
        cache.providers = pre ++ node :: post ∧
        chain_declines (open_call r key) pre h0 = some hi ∧
        node.provider.open_entity hi r key = (OK, h1) ∧
        node.provider.recall_headers h1 r = (APR_SUCCESS, hs) ∧
        vary_check r.headers_in hs.req_hdrs (apr_table_get hs.resp_hdrs "Vary") = true ∧
        srv.ap_cache_check_freshness hs r = false ∧
        ((apr_table_get hs.resp_hdrs "ETag").isSome ∨
          (apr_table_get hs.resp_hdrs "Last-Modified").isSome) := by
  constructor
  · intro hset
    rcases cache_select_cases srv r cache h0 with ⟨hc, -, -⟩ |
      ⟨key, pre, node, post, hi, h1, hkey, hchain, hpre, hopen, -, -, hc, -⟩
    · rw [hc, hnone] at hset
      cases hset
    · rw [hc] at hset
      by_cases husable : (node.provider.recall_headers h1 r).1 = APR_SUCCESS ∧
          vary_check r.headers_in (node.provider.recall_headers h1 r).2.req_hdrs
            (apr_table_get (node.provider.recall_headers h1 r).2.resp_hdrs "Vary") = true
      · obtain ⟨hrc, hvary⟩ := husable
        have hrecall : node.provider.recall_headers h1 r =
            (APR_SUCCESS, (node.provider.recall_headers h1 r).2) := by
          rw [← hrc]
        cases hfresh : srv.ap_cache_check_freshness (node.provider.recall_headers h1 r).2 r with
        | true =>
          rw [cache_select_opened_fresh srv r cache node h1 _ hrecall hvary hfresh] at hset
          simp only [hnone] at hset
          cases hset
        | false =>
          rw [cache_select_opened_stale srv r cache node h1 _ hrecall hvary hfresh] at hset
          simp only at hset
          split at hset
          · rename_i hval
            simp only [Option.some.injEq] at hset
            subst hset
            refine ⟨key, pre, node, post, hi, h1, hkey, hchain, hpre, hopen, hrecall, hvary,
              hfresh, ?_⟩
            simpa using hval
          · rw [hnone] at hset
            cases hset
      · rw [(cache_select_opened_unusable srv r cache node h1 husable).1, hnone] at hset
        cases hset
  · rintro ⟨key, pre, node, post, hi, h1, hkey, hchain, hpre, hopen, hrecall, hvary, hstale,
      hval⟩
    obtain ⟨-, -, hc, -⟩ :=
      cache_select_first_open srv r cache h0 key pre post node hi h1 hkey hchain hpre hopen
    rw [hc, cache_select_opened_stale srv r cache node h1 hs hrecall hvary hstale]
    have : ((apr_table_get hs.resp_hdrs "ETag").isSome
        || (apr_table_get hs.resp_hdrs "Last-Modified").isSome) = true := by
      simpa using hval
    simp only [this, if_true]

/-- C17, as amended, on a stale entity with an ETag: the stale handle is set to it. -/
theorem stale_handle_iff_witness :
    ({ providers := example_chain } : cache_request_rec).stale_handle = none ∧
    (cache_select (example_server false) english_request
      { providers := example_chain } {}).cache.stale_handle
      = some { cache_obj := some "/a", req_hdrs := [("Accept-Language", "en")],
               resp_hdrs := [("Vary", "Accept-Language"), ("ETag", "\"abc\""),
                 ("Content-Type", "text/html")] } :=
  ⟨rfl, (stale_handle_iff (example_server false) english_request
      { providers := example_chain } {} _ rfl).2
    ⟨"/a", example_chain.take 1, _, example_chain.drop 2, {}, { cache_obj := some "/a" },
      rfl, rfl, rfl, rfl, rfl, by decide, rfl, Or.inl rfl⟩⟩

/-- C17 as stated fails: the request state has no stale handle, the second provider
opens an entity that passes the Vary check and is not fresh, and `cache_select` leaves
the state without a stale handle, because the cached response headers hold neither an
ETag nor a Last-Modified. -/
theorem stale_handle_counterexample :
    ({ providers := variant_chain } : cache_request_rec).stale_handle = none ∧
    chain_declines (open_call english_request "/a") (variant_chain.take 1) {} = some {} ∧
    (entity_provider [("Accept-Language", "en")] [("Vary", "Accept-Language")]).open_entity
      {} english_request "/a" = (OK, { cache_obj := some "/a" }) ∧
    (entity_provider [("Accept-Language", "en")] [("Vary", "Accept-Language")]).recall_headers
      { cache_obj := some "/a" } english_request
      = (APR_SUCCESS, { cache_obj := some "/a", req_hdrs := [("Accept-Language", "en")],
                        resp_hdrs := [("Vary", "Accept-Language")] }) ∧
    vary_check english_request.headers_in [("Accept-Language", "en")]
      (apr_table_get [("Vary", "Accept-Language")] "Vary") = true ∧
    (example_server false).ap_cache_check_freshness
      { cache_obj := some "/a", req_hdrs := [("Accept-Language", "en")],
        resp_hdrs := [("Vary", "Accept-Language")] } english_request = false ∧
    (cache_select (example_server false) english_request
      { providers := variant_chain } {}).calls.map (fun n => n.provider_name)
      = ["mem", "disk"] ∧
    (cache_select (example_server false) english_request
      { providers := variant_chain } {}).cache.stale_handle = none := by
  refine ⟨rfl, rfl, rfl, rfl, by decide, rfl, by decide, by decide⟩

/-- C18, as amended: `cache_remove_url` leaves provider and provider_name as they
were. `cache_create_entity` leaves them as they were unless it returns OK, and then
they are those of the provider it called last, whose `create_entity` returned OK.
`cache_select` leaves them as they were unless the first provider that does not
decline opens an entity whose headers recall and pass the Vary check, and then they
are those of that provider, whether the entity is fresh or stale. A binding made
before the call is not consulted. -/
theorem provider_binding_later_calls (srv : cache_server) (r : request_rec)
    (cache : cache_request_rec) :
    ((cache_remove_url cache).cache.provider = cache.provider ∧
      (cache_remove_url cache).cache.provider_name = cache.provider_name) ∧
    (∀ size : Int,
      ((cache_create_entity srv r cache size).rv ≠ OK →
        (cache_create_entity srv r cache size).cache.provider = cache.provider ∧
        (cache_create_entity srv r cache size).cache.provider_name = cache.provider_name) ∧
      ((cache_create_entity srv r cache size).rv = OK →
        ∃ node, (cache_create_entity srv r cache size).calls.getLast? = some node ∧
          (cache_create_entity srv r cache size).cache.provider = some node.provider ∧
          (cache_create_entity srv r cache size).cache.provider_name
            = some node.provider_name)) ∧
    (∀ h0 : cache_handle_t,
      (∀ key pre node post hi h1,
        srv.cache_generate_key r = (APR_SUCCESS, key) →
        cache.providers = pre ++ node :: post →
        chain_declines (open_call r key) pre h0 = some hi →
        node.provider.open_entity hi r key = (OK, h1) →
        (node.provider.recall_headers h1 r).1 = APR_SUCCESS →
        vary_check r.headers_in (node.provider.recall_headers h1 r).2.req_hdrs
          (apr_table_get (node.provider.recall_headers h1 r).2.resp_hdrs "Vary") = true →
        (cache_select srv r cache h0).cache.provider = some node.provider ∧
        (cache_select srv r cache h0).cache.provider_name = some node.provider_name) ∧
      ((¬ ∃ key pre node post hi h1,
          srv.cache_generate_key r = (APR_SUCCESS, key) ∧
          cache.providers = pre ++ node :: post ∧
          chain_declines (open_call r key) pre h0 = some hi ∧
          node.provider.open_entity hi r key = (OK, h1) ∧
          (node.provider.recall_headers h1 r).1 = APR_SUCCESS ∧
          vary_check r.headers_in (node.provider.recall_headers h1 r).2.req_hdrs
            (apr_table_get (node.provider.recall_headers h1 r).2.resp_hdrs "Vary") = true) →
        (cache_select srv r cache h0).cache.provider = cache.provider ∧
        (cache_select srv r cache h0).cache.provider_name = cache.provider_name)) := by
  have hbound : ∀ (node : cache_provider_list) (h1 : cache_handle_t),
      (node.provider.recall_headers h1 r).1 = APR_SUCCESS →
      vary_check r.headers_in (node.provider.recall_headers h1 r).2.req_hdrs
        (apr_table_get (node.provider.recall_headers h1 r).2.resp_hdrs "Vary") = true →
      (cache_select_opened srv r cache node h1).cache.provider = some node.provider ∧
      (cache_select_opened srv r cache node h1).cache.provider_name
        = some node.provider_name := by
    intro node h1 hrc hvary
    have hrecall : node.provider.recall_headers h1 r =
        (APR_SUCCESS, (node.provider.recall_headers h1 r).2) := by
      rw [← hrc]
    cases hfresh : srv.ap_cache_check_freshness (node.provider.recall_headers h1 r).2 r with
    | true =>
      rw [cache_select_opened_fresh srv r cache node h1 _ hrecall hvary hfresh]
      exact ⟨rfl, rfl⟩
    | false =>
      rw [cache_select_opened_stale srv r cache node h1 _ hrecall hvary hfresh]
      exact ⟨rfl, rfl⟩
  refine ⟨?_, ?_, ?_⟩
  · rw [cache_remove_url_cache cache]
    exact ⟨rfl, rfl⟩
  · intro size
    rcases cache_create_entity_cases srv r cache size with ⟨hc, hrv⟩ |
      ⟨key, pre, node, post, hi, hnew, -, -, -, -, hrv, hc, hcalls⟩
    · exact ⟨fun _ => by rw [hc]; exact ⟨rfl, rfl⟩, fun h => absurd h hrv⟩
    · refine ⟨fun h => absurd hrv h, fun _ => ⟨node, ?_, ?_, ?_⟩⟩
      · rw [hcalls]; simp
      · rw [hc]
      · rw [hc]
  · intro h0
    constructor
    · intro key pre node post hi h1 hkey hchain hpre hopen hrc hvary
      obtain ⟨-, -, hc, -⟩ :=
        cache_select_first_open srv r cache h0 key pre post node hi h1 hkey hchain hpre hopen
      rw [hc]
      exact hbound node h1 hrc hvary
    · intro hno
      rcases cache_select_cases srv r cache h0 with ⟨hc, -, -⟩ |
        ⟨key, pre, node, post, hi, h1, hkey, hchain, hpre, hopen, -, -, hc, -⟩
      · rw [hc]
        exact ⟨rfl, rfl⟩
      · have husable : ¬ ((node.provider.recall_headers h1 r).1 = APR_SUCCESS ∧
            vary_check r.headers_in (node.provider.recall_headers h1 r).2.req_hdrs
              (apr_table_get (node.provider.recall_headers h1 r).2.resp_hdrs "Vary") = true) :=
          fun hu => hno ⟨key, pre, node, post, hi, h1, hkey, hchain, hpre, hopen, hu.1, hu.2⟩
        rw [hc, (cache_select_opened_unusable srv r cache node h1 husable).1]
        exact ⟨rfl, rfl⟩

/-- C18, as amended, on a state bound to "disk": removal keeps the binding, a create
that every provider declines keeps it, and a create that "mem" accepts binds "mem". -/
theorem provider_binding_later_calls_witness :
    (cache_remove_url
      { providers := removal_chain, provider_name := some "disk" }).cache.provider_name
      = some "disk" ∧
    (cache_create_entity (example_server false) english_request
      { providers := declining_chain, provider_name := some "disk" } (-1)).cache.provider_name
      = some "disk" ∧
    (cache_create_entity (example_server false) english_request
      { providers := rebinding_chain, provider_name := some "disk" } (-1)).cache.provider_name
      = some "mem" := by
  have h1 := provider_binding_later_calls (example_server false) english_request
    { providers := removal_chain, provider_name := some "disk" }
  have h2 := provider_binding_later_calls (example_server false) english_request
    { providers := declining_chain, provider_name := some "disk" }
  refine ⟨h1.1.2, ((h2.2.1 (-1)).1 (by decide)).2, by decide⟩

/-- C18 as stated fails: `cache_select` binds the request state to "disk", whose open
succeeds (with a fresh entity it returns OK, with a stale one it keeps the stale
handle for revalidation), and the later `cache_create_entity` on that state, which
"mem" accepts, leaves it bound to "mem". -/
theorem provider_binding_counterexample :
    (cache_select (example_server false) english_request
      { providers := rebinding_chain } {}).cache.provider_name = some "disk" ∧
    (cache_create_entity (example_server false) english_request
      (cache_select (example_server false) english_request
        { providers := rebinding_chain } {}).cache (-1)).rv = OK ∧
    (cache_create_entity (example_server false) english_request
      (cache_select (example_server false) english_request
        { providers := rebinding_chain } {}).cache (-1)).cache.provider_name = some "mem" ∧
    (cache_select (example_server true) english_request
      { providers := rebinding_chain } {}).rv = OK ∧
    (cache_select (example_server true) english_request
      { providers := rebinding_chain } {}).cache.provider_name = some "disk" ∧
    (cache_create_entity (example_server true) english_request
      (cache_select (example_server true) english_request
        { providers := rebinding_chain } {}).cache (-1)).cache.provider_name = some "mem" := by
  refine ⟨by decide, by decide, by decide, by decide, by decide, by decide⟩

/-- C19: when the first provider that does not decline opens an entity whose header
recall succeeds, whose Vary check passes and which is not fresh, the stale_headers of
the request state after `cache_select` are the inbound headers of the request as they
were on entry, every conditional header of the client included, whatever
`cache_select` then cleared or installed on the request. -/
theorem stale_headers_snapshot (srv : cache_server) (r : request_rec)
    (cache : cache_request_rec) (h0 : cache_handle_t) (key : String)
    (pre post : List cache_provider_list) (node : cache_provider_list)
    (hi h1 h2 : cache_handle_t)
    (hkey : srv.cache_generate_key r = (APR_SUCCESS, key))
    (hchain : cache.providers = pre ++ node :: post)
    (hpre : chain_declines (open_call r key) pre h0 = some hi)
    (hopen : node.provider.open_entity hi r key = (OK, h1))
    (hrecall : node.provider.recall_headers h1 r = (APR_SUCCESS, h2))
    (hvary : vary_check r.headers_in h2.req_hdrs (apr_table_get h2.resp_hdrs "Vary") = true)
    (hstale : srv.ap_cache_check_freshness h2 r = false) :
    (cache_select srv r cache h0).cache.stale_headers = some r.headers_in ∧
      ∀ c ∈ conditional_headers,
        (cache_select srv r cache h0).cache.stale_headers.map
            (fun t => t.filter (fun e => strcasecmp_eq e.1 c))
          = some (r.headers_in.filter (fun e => strcasecmp_eq e.1 c)) := by
  obtain ⟨-, -, hc, -⟩ :=
    cache_select_first_open srv r cache h0 key pre post node hi h1 hkey hchain hpre hopen
  rw [hc, cache_select_opened_stale srv r cache node h1 h2 hrecall hvary hstale]
  exact ⟨rfl, fun _ _ => rfl⟩

/-- C19, on a request that carries If-Match, if-none-match and If-Range: the saved
table is the table on entry, and the request itself has lost those headers. -/
theorem stale_headers_snapshot_witness :
    (cache_select (example_server false) english_request
      { providers := example_chain } {}).cache.stale_headers
      = some [("Accept-Language", "en"), ("If-Match", "\"x\""),
          ("if-none-match", "\"y\""), ("If-Range", "\"z\""), ("Host", "example.org")] ∧
    (cache_select (example_server false) english_request
      { providers := example_chain } {}).r.headers_in
      = [("Accept-Language", "en"), ("Host", "example.org"), ("If-None-Match", "\"abc\"")] := by
  have h := stale_headers_snapshot (example_server false) english_request
    { providers := example_chain } {} "/a" (example_chain.take 1) (example_chain.drop 2)
    { provider_name := "disk",
      provider := entity_provider [("Accept-Language", "en")]
        [("Vary", "Accept-Language"), ("ETag", "\"abc\""), ("Content-Type", "text/html")] }
    {} { cache_obj := some "/a" }
    { cache_obj := some "/a", req_hdrs := [("Accept-Language", "en")],
      resp_hdrs := [("Vary", "Accept-Language"), ("ETag", "\"abc\""),
        ("Content-Type", "text/html")] }
    rfl rfl rfl rfl rfl (by decide) rfl
  exact ⟨h.1, by decide⟩

end CacheStorage
